import Mathlib

/-!
Shallow embedding of the PenLog backend's penetration-lifecycle core:
the data model (`models/__init__.py`) and the route handlers in
`routes/penetrations.py`, `routes/report.py` and `routes/contractors.py`.

Timestamps are modelled as natural numbers (`Option Nat` for nullable
columns); the current wall-clock time is passed explicitly as `now`.
Each Flask handler becomes a pure function from a database snapshot and
request data to either an error (the handler returns early, and the
surrounding try/except rolls the session back, so the snapshot is
unchanged) or an updated snapshot plus the response payload.  The one
handler that commits before it can still fail (`get_contractor_form`)
returns the updated snapshot alongside the possibly-failing response.
-/

namespace PenLog

/-- Mirror of the `User` model: id, role string, optional contractor link. -/
structure User where
  id : Nat
  role : String
  contractor_id : Option Nat := none
deriving Repr, DecidableEq

/-- Mirror of the `Contractor` model (fields the core uses). -/
structure Contractor where
  id : Nat
  name : String
deriving Repr, DecidableEq

/-- Mirror of the `Project` model (fields the core uses). -/
structure Project where
  id : Nat
  supervisor_id : Option Nat := none
  embarkation_date : Nat := 0
deriving Repr, DecidableEq

/-- Mirror of the `Penetration` model (fields the core uses).
`pen_id` is the human-readable identifier string; `id` is the database
primary key. -/
structure Penetration where
  id : Nat
  project_id : Nat
  pen_id : String
  deck : String
  fire_zone : Option String := none
  frame : Option String := none
  location : Option String := none
  pen_type : Option String := none
  size : Option String := none
  contractor_id : Option Nat := none
  status : String := "not_started"
  priority : String := "routine"
  opened_at : Option Nat := none
  completed_at : Option Nat := none
  notes : Option String := none
deriving Repr, DecidableEq

/-- Mirror of the `PenActivity` model: one immutable audit row. -/
structure PenActivity where
  penetration_id : Nat
  user_id : Option Nat := none
  contractor_name : Option String := none
  action : String
  previous_status : String
  new_status : String
  notes : Option String := none
deriving Repr, DecidableEq

/-- Mirror of the `Photo` model (fields the core uses). -/
structure Photo where
  id : Nat
  penetration_id : Nat
  user_id : Option Nat := none
  filename : String := ""
  filepath : String := ""
  photo_type : String := "general"
  caption : Option String := none
deriving Repr, DecidableEq

/-- Mirror of the `ContractorAccessToken` model. -/
structure AccessToken where
  id : Nat
  project_id : Nat
  contractor_id : Option Nat := none
  token : String
  active : Bool := true
  expires_at : Option Nat := none
  last_used_at : Option Nat := none
deriving Repr, DecidableEq

/-- One database snapshot: the tables the lifecycle core touches. -/
structure DB where
  users : List User := []
  contractors : List Contractor := []
  projects : List Project := []
  pens : List Penetration := []
  activities : List PenActivity := []
  photos : List Photo := []
  tokens : List AccessToken := []
deriving Repr, DecidableEq

/-- `User.query.get(user_id)`. -/
def findUser (db : DB) (user_id : Nat) : Option User :=
  db.users.find? (fun u => u.id == user_id)

/-- `Contractor.query.get(contractor_id)`. -/
def findContractor (db : DB) (contractor_id : Nat) : Option Contractor :=
  db.contractors.find? (fun c => c.id == contractor_id)

/-- `Project.query.get(project_id)`. -/
def findProject (db : DB) (project_id : Nat) : Option Project :=
  db.projects.find? (fun p => p.id == project_id)

/-- `Penetration.query.get(pen_id)` — lookup by database primary key. -/
def findPen (db : DB) (pen_id : Nat) : Option Penetration :=
  db.pens.find? (fun p => p.id == pen_id)

/-- `ContractorAccessToken.query.filter_by(token=token).first()`. -/
def findToken (db : DB) (token : String) : Option AccessToken :=
  db.tokens.find? (fun t => t.token == token)

/-- `penetration.photos.count()`. -/
def photoCount (db : DB) (pen_id : Nat) : Nat :=
  (db.photos.filter (fun ph => ph.penetration_id == pen_id)).length

/-- Replace the penetration row with primary key `pen_id` by `newPen`
(the ORM mutates the row in place; every other row is untouched). -/
def setPen (pens : List Penetration) (pen_id : Nat) (newPen : Penetration) :
    List Penetration :=
  pens.map (fun q => if q.id == pen_id then newPen else q)

/-- Replace the access-token row with primary key `tok_id` by `newTok`. -/
def setToken (toks : List AccessToken) (tok_id : Nat) (newTok : AccessToken) :
    List AccessToken :=
  toks.map (fun t => if t.id == tok_id then newTok else t)

/-- A fresh autoincrement primary key for a new penetration row. -/
def freshPenId (db : DB) : Nat :=
  (db.pens.map (fun p => p.id)).foldr max 0 + 1

/-- A fresh autoincrement primary key for a new photo row. -/
def freshPhotoId (db : DB) : Nat :=
  (db.photos.map (fun p => p.id)).foldr max 0 + 1

/-- A fresh autoincrement primary key for a new contractor row. -/
def freshContractorId (db : DB) : Nat :=
  (db.contractors.map (fun c => c.id)).foldr max 0 + 1

/-- A fresh autoincrement primary key for a new access-token row. -/
def freshTokenId (db : DB) : Nat :=
  (db.tokens.map (fun t => t.id)).foldr max 0 + 1

/-- `valid_statuses` in `update_status`. -/
def validStatuses : List String := ["not_started", "open", "closed", "verified"]

/-- `ContractorAccessToken.is_valid`: active, and not past `expires_at`. -/
def tokenIsValid (tok : AccessToken) (now : Nat) : Bool :=
  if ¬ tok.active then false
  else match tok.expires_at with
    | some e => if now > e then false else true
    | none => true

/-- Error outcomes of the handlers, following the spec taxonomy plus the
generic 400s the code returns.  `internal` stands for an uncaught Python
exception surfaced as HTTP 500. -/
inductive ApiErr where
  | notFound
  | unauthorized
  | tokenInvalid
  | invalidStatus
  | badRequest
  | insufficientEvidence (count : Nat)
  | internal
deriving Repr, DecidableEq

/-- The activity row built by `update_status`: `status_changed` when the
requested status differs from the previous one, `note_added` otherwise. -/
def statusActivity (pen : Penetration) (pen_id user_id : Nat) (ns : String)
    (notes : Option String) : PenActivity :=
  { penetration_id := pen_id
    user_id := some user_id
    action := if ns ≠ pen.status then "status_changed" else "note_added"
    previous_status := pen.status
    new_status := ns
    notes := notes }

/-- The status write and timestamp side effects of `update_status`, in
source order: set status; set `opened_at`/`completed_at` when unset
(if/elif); clear `completed_at` when reopening from closed/verified;
clear both when going back to `not_started`. -/
def statusSideEffects (pen : Penetration) (ns : String) (now : Nat) :
    Penetration :=
  let previous_status := pen.status
  let pen1 := { pen with status := ns }
  let pen2 :=
    if ns = "open" ∧ pen1.opened_at = none then
      { pen1 with opened_at := some now }
    else if (ns = "closed" ∨ ns = "verified") ∧ pen1.completed_at = none then
      { pen1 with completed_at := some now }
    else pen1
  let pen3 :=
    if ns = "open" ∧ (previous_status = "closed" ∨ previous_status = "verified")
    then { pen2 with completed_at := none }
    else pen2
  if ns = "not_started" then { pen3 with opened_at := none, completed_at := none }
  else pen3

/-- `update_status` in `routes/penetrations.py` (authenticated path).
`new_status` is `data.get('status')`.  Note the source order: the photo
gate runs *before* the contractor authorization checks. -/
def update_status (db : DB) (user_id pen_id : Nat) (new_status : Option String)
    (notes : Option String) (now : Nat) : Except ApiErr (DB × PenActivity) :=
  match findUser db user_id with
  | none => .error .internal
  | some current_user =>
  match findPen db pen_id with
  | none => .error .notFound
  | some pen =>
  match new_status with
  | none => .error .badRequest
  | some ns =>
  if ns ∉ validStatuses then .error .invalidStatus
  else if ns = "closed" ∧ photoCount db pen_id < 2 then
    .error (.insufficientEvidence (photoCount db pen_id))
  else if current_user.role = "contractor" ∧
      pen.contractor_id ≠ current_user.contractor_id then .error .unauthorized
  else if current_user.role = "contractor" ∧ ns = "verified" then
    .error .unauthorized
  else
    let activity := statusActivity pen pen_id user_id ns notes
    let pen4 := statusSideEffects pen ns now
    .ok ({ db with pens := setPen db.pens pen_id pen4
                   activities := db.activities ++ [activity] }, activity)

/-- Request body of the token-scoped status submit
(`data` in `submit_contractor_report`).  `pen_id` is the numeric value the
client puts in the `pen_id` field (the handler treats it as a database
primary key); a missing or zero value is falsy in Python. -/
structure SubmitData where
  pen_id : Option Nat := none
  action : Option String := none
  notes : Option String := none
deriving Repr, DecidableEq

/-- The status write of `submit_contractor_report`: action `open` sets
status `open` and unconditionally overwrites `opened_at`; action `close`
sets status `closed` and unconditionally overwrites `completed_at`.
Neither branch clears the other timestamp. -/
def submitSideEffects (pen : Penetration) (act : String) (now : Nat) :
    Penetration :=
  if act = "open" then { pen with status := "open", opened_at := some now }
  else { pen with status := "closed", completed_at := some now }

/-- The activity row built by `submit_contractor_report`: attributed by
contractor-name snapshot (`user_id` is null), with the raw submitted
action string as its `action`, and the just-written status as
`new_status`. -/
def submitActivity (pen : Penetration) (act : String) (contractorName : String)
    (notes : Option String) : PenActivity :=
  { penetration_id := pen.id
    user_id := none
    contractor_name := some contractorName
    action := act
    previous_status := pen.status
    new_status := if act = "open" then "open" else "closed"
    notes := some (notes.getD "") }

/-- `submit_contractor_report` in `routes/report.py` (token-scoped path).
On any error the surrounding try/except rolls back, so no state is
returned. -/
def submit_contractor_report (db : DB) (tokenStr : String) (data : SubmitData)
    (now : Nat) : Except ApiErr (DB × PenActivity) :=
  match findToken db tokenStr with
  | none => .error .notFound
  | some access_token =>
  if ¬ tokenIsValid access_token now then .error .tokenInvalid
  else match data.pen_id with
  | none => .error .badRequest
  | some pid =>
  if pid = 0 then .error .badRequest
  else match data.action with
  | none => .error .badRequest
  | some act =>
  if act ≠ "open" ∧ act ≠ "close" then .error .badRequest
  else match findPen db pid with
  | none => .error .notFound
  | some penetration =>
  if penetration.contractor_id ≠ access_token.contractor_id then
    .error .unauthorized
  else if act = "close" ∧ photoCount db pid < 2 then
    .error (.insufficientEvidence (photoCount db pid))
  else
    let pen1 := submitSideEffects penetration act now
    -- `contractor = access_token.contractor; ... contractor.name`:
    -- dereferencing a null relationship raises AttributeError (HTTP 500).
    match access_token.contractor_id.bind (findContractor db) with
    | none => .error .internal
    | some contractor =>
      let activity := submitActivity penetration act contractor.name data.notes
      let tok1 := { access_token with last_used_at := some now }
      .ok ({ db with pens := setPen db.pens pid pen1
                     activities := db.activities ++ [activity]
                     tokens := setToken db.tokens access_token.id tok1 }, activity)

/-- `get_contractor_form` in `routes/report.py`.  The handler commits the
`last_used_at` update *before* building the response, so the snapshot is
returned even when the response afterwards fails (an exception after a
commit is not undone by the rollback in the except clause).  On success
the payload carries the resolved contractor id and name. -/
def get_contractor_form (db : DB) (tokenStr : String) (now : Nat) :
    DB × Except ApiErr (Nat × String) :=
  match findToken db tokenStr with
  | none => (db, .error .notFound)
  | some access_token =>
  if ¬ tokenIsValid access_token now then (db, .error .tokenInvalid)
  else
    let tok1 := { access_token with last_used_at := some now }
    let db1 := { db with tokens := setToken db.tokens access_token.id tok1 }
    match findProject db1 access_token.project_id with
    | none => (db1, .error .internal)
    | some _ =>
    -- `contractor = access_token.contractor; ... contractor.id`:
    -- on an unbound token this raises AttributeError (HTTP 500).
    match access_token.contractor_id.bind (findContractor db1) with
    | none => (db1, .error .internal)
    | some contractor => (db1, .ok (contractor.id, contractor.name))

/-- Request body of `create_pen_via_token`. -/
structure CreatePenTokenData where
  pen_id : Option String := none
  deck : Option String := none
  location : Option String := none
  fire_zone : Option String := none
  frame : Option String := none
  pen_type : Option String := none
deriving Repr, DecidableEq

/-- `create_pen_via_token` in `routes/report.py`.  Note: this handler
never touches `last_used_at`. -/
def create_pen_via_token (db : DB) (tokenStr : String)
    (data : CreatePenTokenData) (now : Nat) :
    Except ApiErr (DB × Penetration) :=
  match findToken db tokenStr with
  | none => .error .tokenInvalid
  | some access_token =>
  if ¬ tokenIsValid access_token now then .error .tokenInvalid
  else match data.pen_id, data.deck, data.location with
  | some pid, some deck, some location =>
    if (db.pens.filter (fun p =>
          p.project_id == access_token.project_id ∧
          p.contractor_id == access_token.contractor_id ∧
          p.pen_id == pid)).length ≠ 0 then .error .badRequest
    else
      let pen : Penetration :=
        { id := freshPenId db
          project_id := access_token.project_id
          contractor_id := access_token.contractor_id
          pen_id := pid
          deck := deck
          location := some location
          fire_zone := data.fire_zone
          frame := data.frame
          pen_type := data.pen_type
          status := "not_started" }
      .ok ({ db with pens := db.pens ++ [pen] }, pen)
  | _, _, _ => .error .badRequest

/-- The characters after the last dot of a filename, or `none` when the
name contains no dot (mirrors `'.' in filename` plus
`filename.rsplit('.', 1)[1]`). -/
def extAfterLastDot : List Char → Option (List Char)
  | [] => none
  | c :: rest =>
    match extAfterLastDot rest with
    | some e => some e
    | none => if c = '.' then some rest else none

/-- File-extension allow-list check in `upload_contractor_photo`
(`file.filename.rsplit('.', 1)[1].lower()` against the allowed set),
implemented over the character list so it reduces in the kernel. -/
def allowedExtension (filename : String) : Bool :=
  match extAfterLastDot filename.toList with
  | none => false
  | some ext =>
    ext.map Char.toLower ∈
      ["png".toList, "jpg".toList, "jpeg".toList, "gif".toList,
       "heic".toList]

/-- `upload_contractor_photo` in `routes/report.py`.  The Cloudinary
upload is an external collaborator; it is modelled as always succeeding
and handing back an opaque URL. -/
def upload_contractor_photo (db : DB) (tokenStr : String)
    (filename : Option String) (penetration_id : Option Nat)
    (photo_type : Option String) (caption : Option String) (now : Nat) :
    Except ApiErr (DB × Photo) :=
  match findToken db tokenStr with
  | none => .error .notFound
  | some access_token =>
  if ¬ tokenIsValid access_token now then .error .tokenInvalid
  else match filename with
  | none => .error .badRequest
  | some fname =>
  if fname = "" then .error .badRequest
  else if ¬ allowedExtension fname then .error .badRequest
  else match penetration_id with
  | none => .error .badRequest
  | some pid =>
  match findPen db pid with
  | none => .error .notFound
  | some penetration =>
  if penetration.contractor_id ≠ access_token.contractor_id then
    .error .unauthorized
  else
    let photo : Photo :=
      { id := freshPhotoId db
        penetration_id := pid
        user_id := none
        filename := fname
        filepath := "cloudinary-url"
        photo_type := photo_type.getD "general"
        caption := caption }
    let tok1 := { access_token with last_used_at := some now }
    .ok ({ db with photos := db.photos ++ [photo]
                   tokens := setToken db.tokens access_token.id tok1 }, photo)

/-- Request body of `update_penetration` (PUT).  A field wrapped in
`some` is present in the JSON body; `contractor_id` may be present with
an explicit null, hence the nested option.  The handler also accepts a
`diameter` key, but the `Penetration` model has no such column, so the
assignment is a no-op on persisted state and is omitted here. -/
structure UpdateData where
  deck : Option String := none
  location : Option String := none
  pen_id : Option String := none
  status : Option String := none
  notes : Option String := none
  contractor_id : Option (Option Nat) := none
deriving Repr, DecidableEq

/-- The field-by-field assignments in `update_penetration`, in source
order: deck, location, pen_id, status, notes, contractor_id.  The raw
`status` write has no timestamp side effects. -/
def applyPenUpdate (pen : Penetration) (data : UpdateData) : Penetration :=
  let pen1 := { pen with deck := (data.deck).getD pen.deck }
  let pen2 := { pen1 with location :=
    match data.location with | some l => some l | none => pen1.location }
  let pen3 := { pen2 with pen_id := (data.pen_id).getD pen2.pen_id }
  let pen4 := { pen3 with status := (data.status).getD pen3.status }
  let pen5 := { pen4 with notes :=
    match data.notes with | some n => some n | none => pen4.notes }
  { pen5 with contractor_id :=
    match data.contractor_id with | some c => c | none => pen5.contractor_id }

/-- `update_penetration` in `routes/penetrations.py` (PUT): raw field
edits; supervisors may only edit pens of projects they supervise. -/
def update_penetration (db : DB) (user_id pen_id : Nat) (data : UpdateData) :
    Except ApiErr (DB × Penetration) :=
  match findUser db user_id with
  | none => .error .notFound
  | some user =>
  match findPen db pen_id with
  | none => .error .notFound
  | some pen =>
  if user.role = "supervisor" ∧
      ¬ ((findProject db pen.project_id).map Project.supervisor_id =
          some (some user.id)) then .error .unauthorized
  else if user.role ≠ "supervisor" ∧ user.role ≠ "admin" then
    .error .unauthorized
  else if (∃ s, data.status = some s ∧ s ∉ validStatuses) then
    .error .invalidStatus
  else
    let pen6 := applyPenUpdate pen data
    .ok ({ db with pens := setPen db.pens pen_id pen6 }, pen6)

/-- One spreadsheet row handed to `bulk_import`.  A `none` field is a
missing key (reading it raises `KeyError`). -/
structure PenRow where
  pen_id : Option String := none
  deck : Option String := none
  fire_zone : Option String := none
  frame : Option String := none
  location : Option String := none
  pen_type : Option String := none
  size : Option String := none
  contractor_id : Option Nat := none
  priority : Option String := none
  status : Option String := none
deriving Repr, DecidableEq

/-- One entry of the `errors` list returned by `bulk_import`
(`f"{pen_id}: {reason}"` in the source). -/
structure BulkErr where
  row : String
  reason : String
deriving Repr, DecidableEq

/-- The duplicate check of the `bulk_import` loop: does any penetration
with this `(project_id, pen_id)` pair exist?  The query sees rows added
earlier in the same call (the session autoflushes pending inserts before
querying). -/
def bulkDup (db : DB) (project_id : Nat) (pid : String) : Prop :=
  (db.pens.filter (fun p =>
    p.project_id == project_id ∧ p.pen_id == pid)).length ≠ 0

instance (db : DB) (project_id : Nat) (pid : String) :
    Decidable (bulkDup db project_id pid) := by
  unfold bulkDup; infer_instance

/-- The `Penetration(...)` constructor call inside the `bulk_import`
loop: row fields, defaults `routine`/`not_started`, fresh primary key. -/
def bulkPen (db : DB) (project_id : Nat) (row : PenRow) (pid deck : String) :
    Penetration :=
  { id := freshPenId db
    project_id := project_id
    pen_id := pid
    deck := deck
    fire_zone := row.fire_zone
    frame := row.frame
    location := row.location
    pen_type := row.pen_type
    size := row.size
    contractor_id := row.contractor_id
    priority := (row.priority).getD "routine"
    status := (row.status).getD "not_started" }

/-- The body of the per-row loop in `bulk_import`: check the row for a
duplicate `(project_id, pen_id)`, then construct and add the penetration;
a `KeyError` on a missing field is caught and recorded as an error entry
for that row alone. -/
def bulkRowStep (project_id : Nat) (acc : DB × List String × List BulkErr)
    (row : PenRow) : DB × List String × List BulkErr :=
  let (db, created, errors) := acc
  match row.pen_id with
  | none => (db, created, errors ++ [⟨"unknown", "KeyError: pen_id"⟩])
  | some pid =>
    if bulkDup db project_id pid then
      (db, created, errors ++ [⟨pid, "Already exists in this project"⟩])
    else match row.deck with
    | none => (db, created, errors ++ [⟨pid, "KeyError: deck"⟩])
    | some deck =>
      let pen := bulkPen db project_id row pid deck
      ({ db with pens := db.pens ++ [pen] }, created ++ [pid], errors)

/-- `bulk_import` in `routes/penetrations.py` (supervisor only — the
role check really is `!= 'supervisor'`, so admins are rejected).  All
rows are processed and committed once at the end; per-row failures are
caught inside the loop. -/
def bulk_import (db : DB) (user_id : Nat) (project_id : Option Nat)
    (rows : List PenRow) : Except ApiErr (DB × List String × List BulkErr) :=
  match findUser db user_id with
  | none => .error .internal
  | some current_user =>
  if current_user.role ≠ "supervisor" then .error .unauthorized
  else match project_id with
  | none => .error .badRequest
  | some pid =>
  if pid = 0 then .error .badRequest
  else if rows.length = 0 then .error .badRequest
  else match findProject db pid with
  | none => .error .notFound
  | some _ =>
    let r := rows.foldl (bulkRowStep pid) (db, [], [])
    .ok r

/-- The reassignments and deletion performed by `merge_contractors` in a
single transaction: every Penetration, User and ContractorAccessToken
referencing the source contractor is pointed at the target, and the
source row is deleted. -/
def mergedDB (db : DB) (sid tid : Nat) : DB :=
  { db with
    pens := db.pens.map (fun p =>
      if p.contractor_id == some sid then
        { p with contractor_id := some tid } else p)
    users := db.users.map (fun u =>
      if u.contractor_id == some sid then
        { u with contractor_id := some tid } else u)
    tokens := db.tokens.map (fun t =>
      if t.contractor_id == some sid then
        { t with contractor_id := some tid } else t)
    contractors := db.contractors.filter (fun c => ¬ c.id == sid) }

/-- `merge_contractors` in `routes/contractors.py`: reassign penetrations,
users and access tokens from the source contractor to the target, delete
the source, all in one commit. -/
def merge_contractors (db : DB) (user_id : Nat)
    (source_id target_id : Option Nat) : Except ApiErr (DB × Contractor) :=
  match findUser db user_id with
  | none => .error .internal
  | some current_user =>
  if current_user.role ≠ "supervisor" ∧ current_user.role ≠ "admin" then
    .error .unauthorized
  else match source_id, target_id with
  | some sid, some tid =>
    if sid = 0 ∨ tid = 0 then .error .badRequest
    else if sid = tid then .error .badRequest
    else match findContractor db sid, findContractor db tid with
    | some _, some target => .ok (mergedDB db sid tid, target)
    | _, _ => .error .notFound
  | _, _ => .error .badRequest

/-- `generate_magic_link` in `routes/contractors.py`: when no contractor
with the submitted name exists, the token is created with
`contractor_id = None` (the handler comments that the contractor "will be
created automatically on first access").  `newTokenStr` stands for the
random token string. -/
def generate_magic_link (db : DB) (user_id : Nat) (project_id : Option Nat)
    (contractor_name : Option String) (newTokenStr : String) :
    Except ApiErr (DB × AccessToken) :=
  match findUser db user_id with
  | none => .error .internal
  | some current_user =>
  if current_user.role ≠ "supervisor" ∧ current_user.role ≠ "admin" then
    .error .unauthorized
  else match project_id, contractor_name with
  | some pid, some cname =>
    if pid = 0 ∨ cname = "" then .error .badRequest
    else match findProject db pid with
    | none => .error .notFound
    | some project =>
      let contractor := db.contractors.find? (fun c => c.name == cname)
      match contractor.bind (fun c =>
          db.tokens.find? (fun t =>
            t.project_id == pid ∧ t.contractor_id == some c.id ∧ t.active)) with
      | some existing_token => .ok (db, existing_token)
      | none =>
        let token : AccessToken :=
          { id := freshTokenId db
            project_id := pid
            contractor_id := contractor.map (fun c => c.id)
            token := newTokenStr
            active := true
            expires_at := some project.embarkation_date }
        .ok ({ db with tokens := db.tokens ++ [token] }, token)
  | _, _ => .error .badRequest

/-- Request body of the authenticated `create_penetration` handler. -/
structure CreatePenData where
  project_id : Option Nat := none
  pen_id : Option String := none
  deck : Option String := none
  fire_zone : Option String := none
  frame : Option String := none
  location : Option String := none
  pen_type : Option String := none
  size : Option String := none
  contractor_id : Option Nat := none
  priority : Option String := none
  notes : Option String := none
deriving Repr, DecidableEq

/-- `create_penetration` in `routes/penetrations.py` (supervisor/admin).
The duplicate check uses the raw `contractor_id` value; the constructor
normalizes falsy values (`data.get('contractor_id') or None`, modelled
as mapping `some 0` to `none`).  A new row always starts in status
`not_started` with both timestamps unset (model defaults). -/
def create_penetration (db : DB) (user_id : Nat) (data : CreatePenData) :
    Except ApiErr (DB × Penetration) :=
  match findUser db user_id with
  | none => .error .internal
  | some current_user =>
  if current_user.role ≠ "supervisor" ∧ current_user.role ≠ "admin" then
    .error .unauthorized
  else match data.project_id, data.pen_id, data.deck with
  | some project_id, some pid, some deck =>
    if (db.pens.filter (fun p =>
          p.project_id == project_id ∧
          p.contractor_id == data.contractor_id ∧
          p.pen_id == pid)).length ≠ 0 then .error .badRequest
    else
      let pen : Penetration :=
        { id := freshPenId db
          project_id := project_id
          pen_id := pid
          deck := deck
          fire_zone := data.fire_zone
          frame := data.frame
          location := data.location
          pen_type := data.pen_type
          size := data.size
          contractor_id :=
            if data.contractor_id = some 0 then none else data.contractor_id
          priority := (data.priority).getD "routine"
          notes := data.notes }
      .ok ({ db with pens := db.pens ++ [pen] }, pen)
  | _, _, _ => .error .badRequest

/-- Whether a status-transition history (most recent first) has entered
`open` and not since returned to `not_started`. -/
def openSinceReset : List String → Bool
  | [] => false
  | s :: t =>
    if s = "not_started" then false
    else if s = "open" then true
    else openSinceReset t

/-- The penetration states reachable through the status-transition
engine: created in its default state, then driven by successful
authenticated status updates and token-scoped submits.  The history
records every status entered, most recent first. -/
inductive ReachPen : Penetration → List String → Prop where
  | created (p : Penetration) (hs : p.status = "not_started")
      (ho : p.opened_at = none) (hc : p.completed_at = none) :
      ReachPen p []
  | auth_step (p p' : Penetration) (hist : List String) (db db' : DB)
      (user_id pen_id : Nat) (ns notes : Option String) (now : Nat)
      (act : PenActivity)
      (hr : ReachPen p hist) (hfind : findPen db pen_id = some p)
      (hstep : update_status db user_id pen_id ns notes now = .ok (db', act))
      (hfind2 : findPen db' pen_id = some p') :
      ReachPen p' (p'.status :: hist)
  | token_step (p p' : Penetration) (hist : List String) (db db' : DB)
      (tokenStr : String) (data : SubmitData) (pen_id : Nat) (now : Nat)
      (act : PenActivity)
      (hr : ReachPen p hist) (hpid : data.pen_id = some pen_id)
      (hfind : findPen db pen_id = some p)
      (hstep : submit_contractor_report db tokenStr data now = .ok (db', act))
      (hfind2 : findPen db' pen_id = some p') :
      ReachPen p' (p'.status :: hist)

/-! ### Helper lemmas about the embedded operations -/

theorem find_setPen {l : List Penetration} {pid : Nat} {p : Penetration}
    (newPen : Penetration)
    (hfind : l.find? (fun q => q.id == pid) = some p)
    (hid : newPen.id = pid) :
    (setPen l pid newPen).find? (fun q => q.id == pid) = some newPen := by
  induction l with
  | nil => simp at hfind
  | cons h t ih =>
    by_cases hh : h.id = pid
    · simp [setPen, hh, hid]
    · rw [List.find?_cons_of_neg _ (by simp [hh])] at hfind
      simp only [setPen, List.map_cons]
      rw [if_neg (by simp [hh])]
      rw [List.find?_cons_of_neg _ (by simp [hh])]
      exact ih hfind

theorem find_setToken {l : List AccessToken} {tokStr : String}
    (tok tok1 : AccessToken)
    (hfind : l.find? (fun t => t.token == tokStr) = some tok)
    (hteq : tok1.token = tok.token) :
    (setToken l tok.id tok1).find? (fun t => t.token == tokStr) = some tok1 := by
  have htok : tok1.token = tokStr := by
    have := List.find?_some hfind
    simp at this
    rw [hteq, this]
  clear hteq
  induction l with
  | nil => simp at hfind
  | cons h t ih =>
    by_cases hh : h.token = tokStr
    · rw [List.find?_cons_of_pos _ (by simp [hh])] at hfind
      obtain rfl : h = tok := by simpa using hfind
      simp [setToken, htok]
    · rw [List.find?_cons_of_neg _ (by simp [hh])] at hfind
      by_cases hid : h.id = tok.id
      · simp [setToken, hid, htok]
      · simp only [setToken, List.map_cons]
        rw [if_neg (by simp [hid])]
        rw [List.find?_cons_of_neg _ (by simp [hh])]
        exact ih hfind

theorem findPen_mem {db : DB} {pid : Nat} {p : Penetration}
    (h : findPen db pid = some p) : p.id = pid := by
  have := List.find?_some h
  simpa using this

theorem findToken_token {db : DB} {tokStr : String} {tok : AccessToken}
    (h : findToken db tokStr = some tok) : tok.token = tokStr := by
  have := List.find?_some h
  simpa using this

theorem sse_id (pen : Penetration) (ns : String) (now : Nat) :
    (statusSideEffects pen ns now).id = pen.id := by
  simp only [statusSideEffects]
  split_ifs <;> rfl

theorem sse_status (pen : Penetration) (ns : String) (now : Nat) :
    (statusSideEffects pen ns now).status = ns := by
  simp only [statusSideEffects]
  split_ifs <;> rfl

theorem sse_open_opened (pen : Penetration) (now : Nat) :
    (statusSideEffects pen "open" now).opened_at =
      (if pen.opened_at = none then some now else pen.opened_at) := by
  simp only [statusSideEffects]
  split_ifs <;> simp_all

theorem sse_keep_opened (pen : Penetration) (ns : String) (now : Nat)
    (h : ns = "closed" ∨ ns = "verified") :
    (statusSideEffects pen ns now).opened_at = pen.opened_at := by
  simp only [statusSideEffects]
  rcases h with h | h <;> subst h <;> split_ifs <;> simp_all

theorem sse_reset_opened (pen : Penetration) (now : Nat) :
    (statusSideEffects pen "not_started" now).opened_at = none := by
  simp only [statusSideEffects]
  split_ifs <;> simp_all

theorem sse_reopen_completed (pen : Penetration) (now : Nat)
    (h : pen.status = "closed" ∨ pen.status = "verified") :
    (statusSideEffects pen "open" now).completed_at = none := by
  simp only [statusSideEffects]
  rcases h with h | h <;> split_ifs <;> simp_all

theorem sse_same_status_noop (pen : Penetration) (now : Nat)
    (hs : pen.status ∈ validStatuses)
    (h1 : pen.status = "open" → pen.opened_at ≠ none)
    (h2 : pen.status = "not_started" →
      pen.opened_at = none ∧ pen.completed_at = none)
    (h3 : (pen.status = "closed" ∨ pen.status = "verified") →
      pen.completed_at ≠ none) :
    statusSideEffects pen pen.status now = pen := by
  simp only [statusSideEffects]
  simp only [validStatuses, List.mem_cons, List.mem_singleton] at hs
  rcases hs with hs | hs | hs | hs | hs <;>
    first
    | (rw [hs]; split_ifs <;> simp_all) <;> cases pen <;> simp_all
    | simp_all

theorem subSse_id (pen : Penetration) (a : String) (now : Nat) :
    (submitSideEffects pen a now).id = pen.id := by
  simp only [submitSideEffects]
  split_ifs <;> rfl

theorem subSse_open (pen : Penetration) (now : Nat) :
    submitSideEffects pen "open" now =
      { pen with status := "open", opened_at := some now } := by
  simp [submitSideEffects]

theorem subSse_close (pen : Penetration) (now : Nat) :
    submitSideEffects pen "close" now =
      { pen with status := "closed", completed_at := some now } := by
  simp [submitSideEffects]

theorem update_status_eq_ok {db : DB} {uid pid : Nat} {ns : String}
    {notes : Option String} {now : Nat} {u : User} {pen : Penetration}
    (hu : findUser db uid = some u) (hp : findPen db pid = some pen)
    (hv : ns ∈ validStatuses)
    (hgate : ¬ (ns = "closed" ∧ photoCount db pid < 2))
    (ha1 : ¬ (u.role = "contractor" ∧ pen.contractor_id ≠ u.contractor_id))
    (ha2 : ¬ (u.role = "contractor" ∧ ns = "verified")) :
    update_status db uid pid (some ns) notes now =
      .ok ({ db with
              pens := setPen db.pens pid (statusSideEffects pen ns now)
              activities := db.activities ++ [statusActivity pen pid uid ns notes] },
           statusActivity pen pid uid ns notes) := by
  unfold update_status
  simp [hu, hp, hv, hgate, ha1, ha2]

theorem update_status_ok_inv {db db' : DB} {uid pid : Nat}
    {ns notes : Option String} {now : Nat} {act : PenActivity}
    {pen : Penetration}
    (hp : findPen db pid = some pen)
    (h : update_status db uid pid ns notes now = .ok (db', act)) :
    ∃ s, ns = some s ∧ s ∈ validStatuses ∧
      findPen db' pid = some (statusSideEffects pen s now) := by
  cases hu : findUser db uid with
  | none =>
    unfold update_status at h
    rw [hu] at h
    exact absurd h (by simp)
  | some u =>
    cases ns with
    | none =>
      unfold update_status at h
      rw [hu, hp] at h
      simp only [] at h
      exact absurd h (by simp)
    | some s =>
      unfold update_status at h
      rw [hu, hp] at h
      simp only [] at h
      refine ⟨s, rfl, ?_⟩
      by_cases hv : s ∈ validStatuses
      · rw [if_neg (not_not_intro hv)] at h
        refine ⟨hv, ?_⟩
        by_cases hgate : s = "closed" ∧ photoCount db pid < 2
        · rw [if_pos hgate] at h
          exact absurd h (by simp)
        · rw [if_neg hgate] at h
          by_cases ha1 : u.role = "contractor" ∧
              pen.contractor_id ≠ u.contractor_id
          · rw [if_pos ha1] at h
            exact absurd h (by simp)
          · rw [if_neg ha1] at h
            by_cases ha2 : u.role = "contractor" ∧ s = "verified"
            · rw [if_pos ha2] at h
              exact absurd h (by simp)
            · rw [if_neg ha2] at h
              simp only [Except.ok.injEq, Prod.mk.injEq] at h
              obtain ⟨h1, h2⟩ := h
              rw [← h1]
              show (setPen db.pens pid (statusSideEffects pen s now)).find?
                  (fun p => p.id == pid) = some (statusSideEffects pen s now)
              exact find_setPen _ hp ((sse_id pen s now).trans (findPen_mem hp))
      · rw [if_pos hv] at h
        exact absurd h (by simp)

theorem submit_eq_ok {db : DB} {tokStr : String} {data : SubmitData}
    {now : Nat} {tok : AccessToken} {pid : Nat} {a : String}
    {pen : Penetration} {c : Contractor}
    (ht : findToken db tokStr = some tok) (hv : tokenIsValid tok now = true)
    (hpid : data.pen_id = some pid) (h0 : pid ≠ 0)
    (ha : data.action = some a) (hav : a = "open" ∨ a = "close")
    (hp : findPen db pid = some pen)
    (hassign : pen.contractor_id = tok.contractor_id)
    (hgate : ¬ (a = "close" ∧ photoCount db pid < 2))
    (hc : tok.contractor_id.bind (findContractor db) = some c) :
    submit_contractor_report db tokStr data now =
      .ok ({ db with
              pens := setPen db.pens pid (submitSideEffects pen a now)
              activities := db.activities ++
                [submitActivity pen a c.name data.notes]
              tokens := setToken db.tokens tok.id
                { tok with last_used_at := some now } },
           submitActivity pen a c.name data.notes) := by
  have hacond : ¬ (a ≠ "open" ∧ a ≠ "close") := by
    rcases hav with h | h <;> simp [h]
  have hassign2 : ¬ (pen.contractor_id ≠ tok.contractor_id) := by
    simp [hassign]
  unfold submit_contractor_report
  simp [ht, hv, hpid, h0, ha, hacond, hp, hassign2, hgate, hc]

theorem submit_ok_inv {db db' : DB} {tokStr : String} {data : SubmitData}
    {now : Nat} {act : PenActivity} :
    submit_contractor_report db tokStr data now = .ok (db', act) →
    ∃ tok pid a pen c,
      findToken db tokStr = some tok ∧ tokenIsValid tok now = true ∧
      data.pen_id = some pid ∧ data.action = some a ∧
      (a = "open" ∨ a = "close") ∧ findPen db pid = some pen ∧
      pen.contractor_id = tok.contractor_id ∧
      tok.contractor_id.bind (findContractor db) = some c ∧
      act = submitActivity pen a c.name data.notes ∧
      db' = { db with
              pens := setPen db.pens pid (submitSideEffects pen a now)
              activities := db.activities ++ [act]
              tokens := setToken db.tokens tok.id
                { tok with last_used_at := some now } } := by
  intro h
  unfold submit_contractor_report at h
  cases ht : findToken db tokStr with
  | none =>
    rw [ht] at h
    exact absurd h (by simp)
  | some tok =>
    rw [ht] at h
    simp only [] at h
    by_cases hv : tokenIsValid tok now
    case neg =>
      rw [if_pos hv] at h
      exact absurd h (by simp)
    case pos =>
      rw [if_neg (not_not_intro hv)] at h
      cases hpid : data.pen_id with
      | none =>
        rw [hpid] at h
        simp only [] at h
        exact absurd h (by simp)
      | some pid =>
        rw [hpid] at h
        simp only [] at h
        by_cases h0 : pid = 0
        · rw [if_pos h0] at h
          exact absurd h (by simp)
        · rw [if_neg h0] at h
          cases ha : data.action with
          | none =>
            rw [ha] at h
            simp only [] at h
            exact absurd h (by simp)
          | some a =>
            rw [ha] at h
            simp only [] at h
            by_cases hav : a ≠ "open" ∧ a ≠ "close"
            · rw [if_pos hav] at h
              exact absurd h (by simp)
            · rw [if_neg hav] at h
              cases hp : findPen db pid with
              | none =>
                rw [hp] at h
                simp only [] at h
                exact absurd h (by simp)
              | some pen =>
                rw [hp] at h
                simp only [] at h
                by_cases hassign : pen.contractor_id ≠ tok.contractor_id
                · rw [if_pos hassign] at h
                  exact absurd h (by simp)
                · rw [if_neg hassign] at h
                  by_cases hgate : a = "close" ∧ photoCount db pid < 2
                  · rw [if_pos hgate] at h
                    exact absurd h (by simp)
                  · rw [if_neg hgate] at h
                    cases hc : tok.contractor_id.bind (findContractor db) with
                    | none =>
                      rw [hc] at h
                      simp only [] at h
                      exact absurd h (by simp)
                    | some c =>
                      rw [hc] at h
                      simp only [] at h
                      simp only [Except.ok.injEq, Prod.mk.injEq] at h
                      obtain ⟨h1, h2⟩ := h
                      have havd : a = "open" ∨ a = "close" := by tauto
                      refine ⟨tok, pid, a, pen, c, rfl, by simpa using hv,
                        rfl, rfl, havd, hp, by simpa using hassign, hc,
                        h2.symm, ?_⟩
                      rw [← h1, ← h2]

/-! ### Concrete sample databases used by witnesses and counterexamples -/

/-- A small concrete snapshot: an admin, a contractor-role user bound to
contractor 10, a supervisor, two contractors, one project, three
penetrations (pen 1 assigned to contractor 10; pen 2 assigned to
contractor 20 and already open; pen 3 with pen-identifier string "7"),
no photos, a token bound to contractor 10 and an unbound token. -/
def dbA : DB :=
  { users := [⟨1, "admin", none⟩, ⟨2, "contractor", some 10⟩,
              ⟨3, "supervisor", none⟩]
    contractors := [⟨10, "Acme"⟩, ⟨20, "Beta"⟩]
    projects := [⟨100, some 3, 50⟩]
    pens := [{ id := 1, project_id := 100, pen_id := "PEN-001", deck := "A",
               contractor_id := some 10 },
             { id := 2, project_id := 100, pen_id := "PEN-002", deck := "B",
               contractor_id := some 20, status := "open",
               opened_at := some 5 },
             { id := 3, project_id := 100, pen_id := "7", deck := "C",
               contractor_id := some 10 }]
    activities := []
    photos := []
    tokens := [⟨1, 100, some 10, "tok", true, none, none⟩,
               ⟨2, 100, none, "unbound", true, none, none⟩] }

/-- `dbA` with two photos attached to penetration 1. -/
def dbB : DB :=
  { dbA with photos := [{ id := 1, penetration_id := 1 },
                        { id := 2, penetration_id := 1 }] }

/-- `dbB` with penetration 1 closed (`opened_at = 3`, `completed_at = 4`). -/
def dbC : DB :=
  { dbB with pens :=
      [{ id := 1, project_id := 100, pen_id := "PEN-001", deck := "A",
         contractor_id := some 10, status := "closed",
         opened_at := some 3, completed_at := some 4 },
       { id := 2, project_id := 100, pen_id := "PEN-002", deck := "B",
         contractor_id := some 20, status := "open", opened_at := some 5 },
       { id := 3, project_id := 100, pen_id := "7", deck := "C",
         contractor_id := some 10 }] }

/-! ### Claims -/

/-- C1: for every penetration and every principal authorized to close it,
a requested transition into `closed` succeeds iff the current photo count
is at least 2; below 2 it fails with `InsufficientEvidence` carrying the
current count (and, the handler having returned before any write, the
penetration is unchanged).  Both access paths behave this way. -/
theorem C1_close_gate_iff_two_photos :
    (∀ (db : DB) (uid pid : Nat) (notes : Option String) (now : Nat)
        (u : User) (pen : Penetration),
      findUser db uid = some u → findPen db pid = some pen →
      (u.role = "contractor" → pen.contractor_id = u.contractor_id) →
      (photoCount db pid < 2 →
        update_status db uid pid (some "closed") notes now =
          .error (.insufficientEvidence (photoCount db pid))) ∧
      (2 ≤ photoCount db pid →
        ∃ db' act,
          update_status db uid pid (some "closed") notes now =
            .ok (db', act))) ∧
    (∀ (db : DB) (tokStr : String) (data : SubmitData) (now pid : Nat)
        (tok : AccessToken) (pen : Penetration) (c : Contractor),
      findToken db tokStr = some tok → tokenIsValid tok now = true →
      data.pen_id = some pid → pid ≠ 0 → data.action = some "close" →
      findPen db pid = some pen →
      pen.contractor_id = tok.contractor_id →
      tok.contractor_id.bind (findContractor db) = some c →
      (photoCount db pid < 2 →
        submit_contractor_report db tokStr data now =
          .error (.insufficientEvidence (photoCount db pid))) ∧
      (2 ≤ photoCount db pid →
        ∃ db' act,
          submit_contractor_report db tokStr data now = .ok (db', act))) := by
  constructor
  · intro db uid pid notes now u pen hu hp hauth
    constructor
    · intro hcount
      unfold update_status
      rw [hu, hp]
      simp only []
      rw [if_neg (by simp [validStatuses]), if_pos ⟨trivial, hcount⟩]
    · intro hcount
      refine ⟨_, _, update_status_eq_ok hu hp (by simp [validStatuses])
        ?_ ?_ ?_⟩
      · rintro ⟨-, hlt⟩; omega
      · rintro ⟨hrole, hne⟩; exact hne (hauth hrole)
      · rintro ⟨-, hver⟩; exact absurd hver (by decide)
  · intro db tokStr data now pid tok pen c ht hv hpid h0 ha hp hassign hc
    constructor
    · intro hcount
      unfold submit_contractor_report
      rw [ht]
      simp only []
      rw [if_neg (not_not_intro (by simp [hv])), hpid]
      simp only []
      rw [if_neg h0, ha]
      simp only []
      rw [if_neg (by simp), hp]
      simp only []
      rw [if_neg (by simp [hassign]), if_pos ⟨trivial, hcount⟩]
    · intro hcount
      refine ⟨_, _, submit_eq_ok ht hv hpid h0 ha (Or.inr rfl) hp hassign
        ?_ hc⟩
      rintro ⟨-, hlt⟩; omega

/-- Witness for C1 at concrete inputs: with zero photos the close is
rejected with the count, with two photos it succeeds, on both paths. -/
theorem C1_witness :
    update_status dbA 1 1 (some "closed") none 9 =
      .error (.insufficientEvidence (photoCount dbA 1)) ∧
    (∃ db' act,
      update_status dbB 1 1 (some "closed") none 9 = .ok (db', act)) ∧
    submit_contractor_report dbA "tok"
        { pen_id := some 1, action := some "close" } 9 =
      .error (.insufficientEvidence (photoCount dbA 1)) ∧
    (∃ db' act,
      submit_contractor_report dbB "tok"
        { pen_id := some 1, action := some "close" } 9 = .ok (db', act)) := by
  refine ⟨?_, ?_, ?_, ?_⟩
  · exact (C1_close_gate_iff_two_photos.1 dbA 1 1 none 9 ⟨1, "admin", none⟩
      { id := 1, project_id := 100, pen_id := "PEN-001", deck := "A",
        contractor_id := some 10 } rfl rfl
      (fun h => absurd h (by decide))).1 (by decide)
  · exact (C1_close_gate_iff_two_photos.1 dbB 1 1 none 9 ⟨1, "admin", none⟩
      { id := 1, project_id := 100, pen_id := "PEN-001", deck := "A",
        contractor_id := some 10 } rfl rfl
      (fun h => absurd h (by decide))).2 (by decide)
  · exact (C1_close_gate_iff_two_photos.2 dbA "tok"
      { pen_id := some 1, action := some "close" } 9 1
      ⟨1, 100, some 10, "tok", true, none, none⟩
      { id := 1, project_id := 100, pen_id := "PEN-001", deck := "A",
        contractor_id := some 10 } ⟨10, "Acme"⟩ rfl rfl rfl (by decide) rfl
      rfl rfl rfl).1 (by decide)
  · exact (C1_close_gate_iff_two_photos.2 dbB "tok"
      { pen_id := some 1, action := some "close" } 9 1
      ⟨1, 100, some 10, "tok", true, none, none⟩
      { id := 1, project_id := 100, pen_id := "PEN-001", deck := "A",
        contractor_id := some 10 } ⟨10, "Acme"⟩ rfl rfl rfl (by decide) rfl
      rfl rfl rfl).2 (by decide)

/-- C2 counterexample: a contractor-role principal (user 2, contractor
10) requests `closed` on a penetration assigned to another contractor
(pen 2, contractor 20) with zero photos.  The claim says this fails with
`Unauthorized` regardless of photo count, but the photo gate runs first
and the request fails with `InsufficientEvidence 0` instead. -/
theorem C2_counterexample :
    update_status dbA 2 2 (some "closed") none 9 =
      .error (.insufficientEvidence 0) ∧
    ApiErr.insufficientEvidence 0 ≠ ApiErr.unauthorized :=
  ⟨rfl, by decide⟩

/-- C2 (amended): for a contractor-role principal, a transition request
on a penetration not assigned to them, or into `verified`, always fails
and leaves the penetration unchanged; the error is `Unauthorized` except
when the requested status is `closed` and the photo count is below 2, in
which case the photo gate fires first and the error is
`InsufficientEvidence` with the count. -/
theorem C2_contractor_guard_amended :
    ∀ (db : DB) (uid pid : Nat) (s : String) (notes : Option String)
      (now : Nat) (u : User) (pen : Penetration),
      findUser db uid = some u → u.role = "contractor" →
      findPen db pid = some pen → s ∈ validStatuses →
      (pen.contractor_id ≠ u.contractor_id ∨ s = "verified") →
      update_status db uid pid (some s) notes now =
        .error (if s = "closed" ∧ photoCount db pid < 2
                then .insufficientEvidence (photoCount db pid)
                else .unauthorized) := by
  intro db uid pid s notes now u pen hu hrole hp hv hor
  unfold update_status
  rw [hu, hp]
  simp only []
  rw [if_neg (not_not_intro hv)]
  by_cases hgate : s = "closed" ∧ photoCount db pid < 2
  · simp only [if_pos hgate]
  · simp only [if_neg hgate]
    by_cases hne : pen.contractor_id ≠ u.contractor_id
    · rw [if_pos ⟨hrole, hne⟩]
    · rcases hor with h | h
      · exact absurd h hne
      · rw [if_neg (fun hc => hne hc.2), if_pos ⟨hrole, h⟩]

/-- Witness for the amended C2: contractor user 2 requesting `open` on
pen 2 (assigned to contractor 20) is rejected, and since the requested
status is not `closed` the error is `Unauthorized`. -/
theorem C2_amended_witness :
    update_status dbA 2 2 (some "open") none 9 =
      .error (if ("open" = "closed" ∧ photoCount dbA 2 < 2)
              then .insufficientEvidence (photoCount dbA 2)
              else .unauthorized) :=
  C2_contractor_guard_amended dbA 2 2 "open" none 9 ⟨2, "contractor", some 10⟩
    { id := 2, project_id := 100, pen_id := "PEN-002", deck := "B",
      contractor_id := some 20, status := "open", opened_at := some 5 }
    rfl rfl rfl (by decide) (Or.inl (by decide))

/-- The closed penetration of `dbC` (opened at 3, completed at 4). -/
def penC1 : Penetration :=
  { id := 1, project_id := 100, pen_id := "PEN-001", deck := "A",
    contractor_id := some 10, status := "closed",
    opened_at := some 3, completed_at := some 4 }

/-- C3 counterexample: on the token-scoped path, submitting action
`open` for the closed penetration of `dbC` succeeds but leaves
`completed_at` set (still 4) and overwrites the already-set `opened_at`
(3 becomes 9), contradicting the claim for that access path. -/
theorem C3_counterexample :
    (submit_contractor_report dbC "tok"
        { pen_id := some 1, action := some "open" } 9).map
      (fun r => (findPen r.1 1).map
        (fun p => (p.status, p.opened_at, p.completed_at)))
      = .ok (some ("open", some 9, some 4)) ∧
    (some 4 : Option Nat) ≠ none ∧ (some 9 : Option Nat) ≠ some 3 :=
  ⟨rfl, by decide, by decide⟩

/-- C3 (amended): on the authenticated path a successful transition to
`open` from `closed`/`verified` clears `completed_at` and leaves a set
`opened_at` unchanged; on the token-scoped path, action `open`
overwrites `opened_at` with the current time and leaves `completed_at`
exactly as it was. -/
theorem C3_reopen_amended :
    (∀ (db db' : DB) (uid pid : Nat) (notes : Option String) (now : Nat)
        (act : PenActivity) (pen pen' : Penetration),
      findPen db pid = some pen →
      (pen.status = "closed" ∨ pen.status = "verified") →
      update_status db uid pid (some "open") notes now = .ok (db', act) →
      findPen db' pid = some pen' →
      pen'.completed_at = none ∧
      (pen.opened_at ≠ none → pen'.opened_at = pen.opened_at)) ∧
    (∀ (db db' : DB) (tokStr : String) (data : SubmitData) (now pid : Nat)
        (act : PenActivity) (pen pen' : Penetration),
      data.pen_id = some pid → data.action = some "open" →
      findPen db pid = some pen →
      submit_contractor_report db tokStr data now = .ok (db', act) →
      findPen db' pid = some pen' →
      pen'.opened_at = some now ∧ pen'.completed_at = pen.completed_at) := by
  constructor
  · intro db db' uid pid notes now act pen pen' hp hprev hstep hfind2
    obtain ⟨s, hs, hsv, hfind⟩ := update_status_ok_inv hp hstep
    obtain rfl : s = "open" := (Option.some.inj hs).symm
    obtain rfl : pen' = statusSideEffects pen "open" now := by
      rw [hfind] at hfind2
      exact (Option.some.inj hfind2).symm
    refine ⟨sse_reopen_completed pen now hprev, ?_⟩
    intro hopened
    rw [sse_open_opened, if_neg hopened]
  · intro db db' tokStr data now pid act pen pen' hpid ha hp hstep hfind2
    obtain ⟨tok, pid2, a, pen2, c, ht, hv, hpid2, ha2, hav, hp2, hassign,
      hc, hact, hdb⟩ := submit_ok_inv hstep
    obtain rfl : pid = pid2 := Option.some.inj (hpid.symm.trans hpid2)
    obtain rfl : ("open" : String) = a := Option.some.inj (ha.symm.trans ha2)
    obtain rfl : pen = pen2 := Option.some.inj (hp.symm.trans hp2)
    have hfind' : findPen db' pid = some (submitSideEffects pen "open" now) := by
      rw [hdb]
      show (setPen db.pens pid (submitSideEffects pen "open" now)).find?
          (fun p => p.id == pid) = some (submitSideEffects pen "open" now)
      exact find_setPen _ hp ((subSse_id pen "open" now).trans (findPen_mem hp))
    obtain rfl : pen' = submitSideEffects pen "open" now := by
      rw [hfind'] at hfind2
      exact (Option.some.inj hfind2).symm
    rw [subSse_open]
    exact ⟨rfl, rfl⟩

/-- Witness for the amended C3, instantiated on `dbC`: the supervisor
reopens the closed pen 1 on the authenticated path (completed cleared,
opened kept at 3), and the bound token reopens it on the token path
(opened overwritten to 9, completed kept at 4). -/
theorem C3_amended_witness :
    ((statusSideEffects penC1 "open" 9).completed_at = none ∧
      (statusSideEffects penC1 "open" 9).opened_at = penC1.opened_at) ∧
    ((submitSideEffects penC1 "open" 9).opened_at = some 9 ∧
      (submitSideEffects penC1 "open" 9).completed_at = penC1.completed_at) := by
  constructor
  · have h := C3_reopen_amended.1 dbC
      { dbC with
        pens := setPen dbC.pens 1 (statusSideEffects penC1 "open" 9)
        activities := dbC.activities ++ [statusActivity penC1 1 3 "open" none] }
      3 1 none 9 (statusActivity penC1 1 3 "open" none)
      penC1 (statusSideEffects penC1 "open" 9) rfl (Or.inl rfl) rfl rfl
    exact ⟨h.1, h.2 (by decide)⟩
  · exact C3_reopen_amended.2 dbC
      { dbC with
        pens := setPen dbC.pens 1 (submitSideEffects penC1 "open" 9)
        activities := dbC.activities ++ [submitActivity penC1 "open" "Acme" none]
        tokens := setToken dbC.tokens 1
          ⟨1, 100, some 10, "tok", true, none, some 9⟩ }
      "tok" { pen_id := some 1, action := some "open" } 9 1
      (submitActivity penC1 "open" "Acme" none)
      penC1 (submitSideEffects penC1 "open" 9) rfl rfl rfl rfl rfl

/-- The fresh penetration 1 of `dbA`/`dbB`. -/
def penA1 : Penetration :=
  { id := 1, project_id := 100, pen_id := "PEN-001", deck := "A",
    contractor_id := some 10 }

/-- Penetration 1 in the open state (opened at 5). -/
def penD1 : Penetration :=
  { penA1 with status := "open", opened_at := some 5 }

/-- `dbB` with penetration 1 open (`opened_at = 5`). -/
def dbD : DB :=
  { dbB with pens :=
      [penD1,
       { id := 2, project_id := 100, pen_id := "PEN-002", deck := "B",
         contractor_id := some 20, status := "open", opened_at := some 5 },
       { id := 3, project_id := 100, pen_id := "7", deck := "C",
         contractor_id := some 10 }] }

/-- `dbA` with penetration 1 closed (opened 3, completed 4) and no
photos attached. -/
def dbF : DB := { dbA with pens := setPen dbA.pens 1 penC1 }

/-- Penetration 1 in status `open` with `opened_at` unset — the state
the raw field update produces (see the C5 counterexample). -/
def penG : Penetration := { penA1 with status := "open" }

/-- `dbA` with penetration 1 in that inconsistent open state. -/
def dbG : DB := { dbA with pens := setPen dbA.pens 1 penG }

/-- C4 counterexample, exhibiting each divergence from the claim.
Token path, re-requesting `open` on the open pen of `dbD`: the logged
action is the raw string `open`, not `note_added`, and `opened_at` is
overwritten (5 becomes 9).  Token path, re-requesting `close` on the
closed pen of `dbC` (two photos): the logged action is `close` and
`completed_at` is overwritten (4 becomes 9).  Authenticated path,
re-requesting `closed` on the closed pen of `dbF` with zero photos: the
request does not succeed at all — the photo gate rejects it.
Authenticated path, re-requesting `open` on the pen of `dbG` whose
`opened_at` is inconsistently unset: the request alters `opened_at`
(none becomes 9). -/
theorem C4_counterexample :
    (submit_contractor_report dbD "tok"
        { pen_id := some 1, action := some "open" } 9).map
      (fun r => (r.2.action, (findPen r.1 1).map Penetration.opened_at))
      = .ok ("open", some (some 9)) ∧
    ("open" : String) ≠ "note_added" ∧ (some 9 : Option Nat) ≠ some 5 ∧
    (submit_contractor_report dbC "tok"
        { pen_id := some 1, action := some "close" } 9).map
      (fun r => (r.2.action, (findPen r.1 1).map Penetration.completed_at))
      = .ok ("close", some (some 9)) ∧
    ("close" : String) ≠ "note_added" ∧ (some 9 : Option Nat) ≠ some 4 ∧
    update_status dbF 1 1 (some "closed") none 9 =
      .error (.insufficientEvidence 0) ∧
    (update_status dbG 1 1 (some "open") none 9).map
      (fun r => (findPen r.1 1).map Penetration.opened_at)
      = .ok (some (some 9)) ∧
    (some 9 : Option Nat) ≠ none :=
  ⟨rfl, by decide, by decide, rfl, by decide, by decide, rfl, rfl,
   by decide⟩

/-- C4 (amended): on the authenticated path, an authorized re-request of
the current status — when the photo gate allows it and the timestamps are
consistent with that status — succeeds, appends exactly one activity with
action `note_added`, and leaves the penetration row completely unchanged.
On the token-scoped path a successful re-request of the current status
(action `open` on an open pen, or `close` on a closed pen) instead
appends one activity whose action is the raw submitted string, never
`note_added`, and overwrites the corresponding timestamp (`opened_at`
for `open`, `completed_at` for `close`) with the current time. -/
theorem C4_same_status_note_amended :
    (∀ (db : DB) (uid pid : Nat) (notes : Option String) (now : Nat)
        (u : User) (pen : Penetration),
      findUser db uid = some u → findPen db pid = some pen →
      pen.status ∈ validStatuses →
      (u.role = "contractor" →
        pen.contractor_id = u.contractor_id ∧ pen.status ≠ "verified") →
      (pen.status = "closed" → 2 ≤ photoCount db pid) →
      (pen.status = "open" → pen.opened_at ≠ none) →
      (pen.status = "not_started" →
        pen.opened_at = none ∧ pen.completed_at = none) →
      ((pen.status = "closed" ∨ pen.status = "verified") →
        pen.completed_at ≠ none) →
      update_status db uid pid (some pen.status) notes now =
        .ok ({ db with
                pens := setPen db.pens pid pen
                activities := db.activities ++
                  [statusActivity pen pid uid pen.status notes] },
             statusActivity pen pid uid pen.status notes) ∧
      (statusActivity pen pid uid pen.status notes).action = "note_added") ∧
    (∀ (db db' : DB) (tokStr : String) (data : SubmitData) (now pid : Nat)
        (act : PenActivity) (pen pen' : Penetration) (a : String),
      data.pen_id = some pid → data.action = some a →
      (a = "open" ∨ a = "close") →
      pen.status = (if a = "open" then "open" else "closed") →
      findPen db pid = some pen →
      submit_contractor_report db tokStr data now = .ok (db', act) →
      findPen db' pid = some pen' →
      act.action = a ∧ act.action ≠ "note_added" ∧
      (a = "open" → pen'.opened_at = some now) ∧
      (a = "close" → pen'.completed_at = some now) ∧
      db'.activities = db.activities ++ [act]) := by
  constructor
  · intro db uid pid notes now u pen hu hp hs hauth hgate ho hn hc
    have hnoop := sse_same_status_noop pen now hs ho hn hc
    constructor
    · have h := @update_status_eq_ok db uid pid pen.status notes now u pen
        hu hp hs
        (fun hg => absurd (hgate hg.1) (by omega))
        (fun hg => hg.2 (hauth hg.1).1)
        (fun hg => (hauth hg.1).2 hg.2)
      rw [hnoop] at h
      exact h
    · simp [statusActivity]
  · intro db db' tokStr data now pid act pen pen' a hpid ha hav hstat hp
      hstep hfind2
    obtain ⟨tok, pid2, a2, pen2, c, ht, hv, hpid2, ha2, hav2, hp2, hassign,
      hcbind, hact, hdb⟩ := submit_ok_inv hstep
    obtain rfl : pid = pid2 := Option.some.inj (hpid.symm.trans hpid2)
    obtain rfl : a = a2 := Option.some.inj (ha.symm.trans ha2)
    obtain rfl : pen = pen2 := Option.some.inj (hp.symm.trans hp2)
    have hfind' : findPen db' pid = some (submitSideEffects pen a now) := by
      rw [hdb]
      show (setPen db.pens pid (submitSideEffects pen a now)).find?
          (fun p => p.id == pid) = some (submitSideEffects pen a now)
      exact find_setPen _ hp ((subSse_id pen a now).trans (findPen_mem hp))
    obtain rfl : pen' = submitSideEffects pen a now := by
      rw [hfind'] at hfind2
      exact (Option.some.inj hfind2).symm
    refine ⟨by rw [hact]; rfl, ?_, ?_, ?_, by rw [hdb]⟩
    · rw [hact]
      rcases hav with rfl | rfl <;> simp [submitActivity]
    · intro haopen
      subst haopen
      rw [subSse_open]
    · intro haclose
      subst haclose
      rw [subSse_close]

/-- Witness for the amended C4: the admin re-requests `not_started` on
the fresh pen 1 of `dbB` (note logged, row unchanged); the bound token
re-submits `open` on the open pen 1 of `dbD` (action `open` logged,
`opened_at` overwritten to 9) and `close` on the closed pen 1 of `dbC`
(action `close` logged, `completed_at` overwritten to 9). -/
theorem C4_amended_witness :
    (update_status dbB 1 1 (some penA1.status) none 9 =
      .ok ({ dbB with
              pens := setPen dbB.pens 1 penA1
              activities := dbB.activities ++
                [statusActivity penA1 1 1 penA1.status none] },
           statusActivity penA1 1 1 penA1.status none) ∧
     (statusActivity penA1 1 1 penA1.status none).action = "note_added") ∧
    ((submitActivity penD1 "open" "Acme" none).action = "open" ∧
     (submitActivity penD1 "open" "Acme" none).action ≠ "note_added" ∧
     (submitSideEffects penD1 "open" 9).opened_at = some 9) ∧
    ((submitActivity penC1 "close" "Acme" none).action = "close" ∧
     (submitActivity penC1 "close" "Acme" none).action ≠ "note_added" ∧
     (submitSideEffects penC1 "close" 9).completed_at = some 9) := by
  refine ⟨?_, ?_, ?_⟩
  · exact C4_same_status_note_amended.1 dbB 1 1 none 9 ⟨1, "admin", none⟩
      penA1 rfl rfl (by decide) (fun h => absurd h (by decide))
      (fun h => absurd h (by decide)) (fun h => absurd h (by decide))
      (fun _ => ⟨rfl, rfl⟩) (fun h => absurd h (by decide))
  · have h := C4_same_status_note_amended.2 dbD
      { dbD with
        pens := setPen dbD.pens 1 (submitSideEffects penD1 "open" 9)
        activities := dbD.activities ++
          [submitActivity penD1 "open" "Acme" none]
        tokens := setToken dbD.tokens 1
          ⟨1, 100, some 10, "tok", true, none, some 9⟩ }
      "tok" { pen_id := some 1, action := some "open" } 9 1
      (submitActivity penD1 "open" "Acme" none)
      penD1 (submitSideEffects penD1 "open" 9) "open"
      rfl rfl (Or.inl rfl) (by decide) rfl rfl rfl
    exact ⟨h.1, h.2.1, h.2.2.1 rfl⟩
  · have h := C4_same_status_note_amended.2 dbC
      { dbC with
        pens := setPen dbC.pens 1 (submitSideEffects penC1 "close" 9)
        activities := dbC.activities ++
          [submitActivity penC1 "close" "Acme" none]
        tokens := setToken dbC.tokens 1
          ⟨1, 100, some 10, "tok", true, none, some 9⟩ }
      "tok" { pen_id := some 1, action := some "close" } 9 1
      (submitActivity penC1 "close" "Acme" none)
      penC1 (submitSideEffects penC1 "close" 9) "close"
      rfl rfl (Or.inr rfl) (by decide) rfl rfl rfl
    exact ⟨h.1, h.2.1, h.2.2.2.1 rfl⟩

/-- C5 counterexample: the claim says every mutating operation preserves
the `opened_at` invariant, but the raw field update (PUT) does not.
Starting from the reachable fresh pen 1 of `dbA` (status `not_started`,
`opened_at` unset), the admin sets `status` to `open` through
`update_penetration`: the pen is now in `open` (so it has entered `open`
and not since returned to `not_started`) yet `opened_at` is still unset,
so the invariant biconditional fails for its history `["open"]`. -/
theorem C5_counterexample :
    ReachPen penA1 [] ∧
    (update_penetration dbA 1 1 { status := some "open" }).map
      (fun r => (r.2.status, r.2.opened_at)) = .ok ("open", none) ∧
    (bulk_import dbA 3 (some 100)
        [{ pen_id := some "X", deck := some "D", status := some "open" }]).map
      (fun r => (findPen r.1 4).map (fun p => (p.status, p.opened_at)))
      = .ok (some ("open", none)) ∧
    ¬ ((none : Option Nat) ≠ none ↔ openSinceReset ["open"] = true) :=
  ⟨.created penA1 rfl rfl rfl, rfl, rfl, by decide⟩

/-- C5 (amended): along every penetration history reachable through the
status-transition engine alone — creation in the default state followed
by successful authenticated status updates and token-scoped submits —
`opened_at` is set iff the pen has entered `open` and not since returned
to `not_started`.  (The raw field update and bulk import can break this,
see the counterexample.) -/
theorem C5_opened_at_invariant_amended :
    ∀ (p : Penetration) (hist : List String), ReachPen p hist →
      (p.opened_at ≠ none ↔ openSinceReset hist = true) := by
  intro p hist hr
  induction hr with
  | created p hs ho hc => simp [ho, openSinceReset]
  | auth_step p p' hist db db' uid pid ns notes now act hr hfind hstep
      hfind2 ih =>
    obtain ⟨s, hs, hsv, hfind'⟩ := update_status_ok_inv hfind hstep
    obtain rfl : p' = statusSideEffects p s now := by
      rw [hfind'] at hfind2
      exact (Option.some.inj hfind2).symm
    rw [sse_status]
    simp only [validStatuses, List.mem_cons, List.mem_singleton,
      List.not_mem_nil, or_false] at hsv
    rcases hsv with rfl | rfl | rfl | rfl
    · simp [sse_reset_opened, openSinceReset]
    · rw [sse_open_opened]
      constructor
      · intro _
        simp [openSinceReset]
      · intro _
        split_ifs <;> simp_all
    · rw [sse_keep_opened p "closed" now (Or.inl rfl)]
      simpa [openSinceReset] using ih
    · rw [sse_keep_opened p "verified" now (Or.inr rfl)]
      simpa [openSinceReset] using ih
  | token_step p p' hist db db' tokenStr data pen_id now act hr hpid hfind
      hstep hfind2 ih =>
    obtain ⟨tok, pid2, a, pen2, c, ht, hv, hpid2, ha2, hav, hp2, hassign,
      hcbind, hact, hdb⟩ := submit_ok_inv hstep
    obtain rfl : pen_id = pid2 := Option.some.inj (hpid.symm.trans hpid2)
    obtain rfl : p = pen2 := Option.some.inj (hfind.symm.trans hp2)
    have hfind' : findPen db' pen_id = some (submitSideEffects p a now) := by
      rw [hdb]
      show (setPen db.pens pen_id (submitSideEffects p a now)).find?
          (fun q => q.id == pen_id) = some (submitSideEffects p a now)
      exact find_setPen _ hfind
        ((subSse_id p a now).trans (findPen_mem hfind))
    obtain rfl : p' = submitSideEffects p a now := by
      rw [hfind'] at hfind2
      exact (Option.some.inj hfind2).symm
    rcases hav with rfl | rfl
    · rw [subSse_open]
      simp [openSinceReset]
    · rw [subSse_close]
      simpa [openSinceReset] using ih

/-- Witness for the amended C5: the open pen obtained by transitioning
the fresh pen 1 of `dbB` to `open` at time 5 is reachable with history
`["open"]`, and the invariant biconditional holds for it. -/
theorem C5_amended_witness :
    penD1.opened_at ≠ none ↔ openSinceReset ["open"] = true :=
  C5_opened_at_invariant_amended penD1 ["open"]
    (ReachPen.auth_step penA1 penD1 [] dbB
      { dbB with
        pens := setPen dbB.pens 1 (statusSideEffects penA1 "open" 5)
        activities := dbB.activities ++ [statusActivity penA1 1 1 "open" none] }
      1 1 (some "open") none 5 (statusActivity penA1 1 1 "open" none)
      (ReachPen.created penA1 rfl rfl rfl) rfl rfl rfl)

/-- `dbA` plus a penetration with no assigned contractor (id 4). -/
def dbE : DB :=
  { dbA with pens := dbA.pens ++
      [{ id := 4, project_id := 100, pen_id := "U-1", deck := "D" }] }

/-- C6: the spec (and the handler's own comments, which promise that a
contractor "will be created automatically on first access") requires the
first use of an unbound token to resolve and bind a contractor without an
internal failure.  The code has no such resolution: `generate_magic_link`
does create tokens with no contractor, and the first form fetch on such a
token dereferences the null `contractor` relationship and dies with an
HTTP 500, creating no contractor and leaving the token unbound; the
token-scoped submit on an unassigned pen dies the same way. -/
theorem C6_unbound_token_internal_error :
    (generate_magic_link dbA 3 (some 100) (some "NewCo") "t2").map
      (fun r => r.2.contractor_id) = .ok none ∧
    (get_contractor_form dbA "unbound" 9).2 = .error .internal ∧
    (get_contractor_form dbA "unbound" 9).1.contractors = dbA.contractors ∧
    (findToken (get_contractor_form dbA "unbound" 9).1 "unbound").map
      AccessToken.contractor_id = some none ∧
    submit_contractor_report dbE "unbound"
        { pen_id := some 4, action := some "open" } 9 = .error .internal :=
  ⟨rfl, rfl, rfl, rfl, rfl⟩

/-- C7: merging a distinct existing source contractor into a target, by
an authorized principal, succeeds in one transaction; afterwards no
penetration, user or access token references the source, the source row
is gone, every row that referenced the source now references the target,
and rows that never referenced the source are untouched. -/
theorem C7_merge_contractors :
    ∀ (db : DB) (uid sid tid : Nat) (u : User) (src tgt : Contractor),
      findUser db uid = some u →
      (u.role = "supervisor" ∨ u.role = "admin") →
      sid ≠ 0 → tid ≠ 0 → sid ≠ tid →
      findContractor db sid = some src →
      findContractor db tid = some tgt →
      merge_contractors db uid (some sid) (some tid) =
        .ok (mergedDB db sid tid, tgt) ∧
      (∀ p ∈ (mergedDB db sid tid).pens, p.contractor_id ≠ some sid) ∧
      (∀ us ∈ (mergedDB db sid tid).users, us.contractor_id ≠ some sid) ∧
      (∀ t ∈ (mergedDB db sid tid).tokens, t.contractor_id ≠ some sid) ∧
      (∀ c ∈ (mergedDB db sid tid).contractors, c.id ≠ sid) ∧
      (∀ p ∈ db.pens, p.contractor_id = some sid →
        { p with contractor_id := some tid } ∈ (mergedDB db sid tid).pens) ∧
      (∀ p ∈ db.pens, p.contractor_id ≠ some sid →
        p ∈ (mergedDB db sid tid).pens) ∧
      (∀ us ∈ db.users, us.contractor_id = some sid →
        { us with contractor_id := some tid } ∈ (mergedDB db sid tid).users) ∧
      (∀ t ∈ db.tokens, t.contractor_id = some sid →
        { t with contractor_id := some tid } ∈ (mergedDB db sid tid).tokens) ∧
      tgt ∈ (mergedDB db sid tid).contractors := by
  intro db uid sid tid u src tgt hu hrole hs0 ht0 hne hsrc htgt
  refine ⟨?_, ?_, ?_, ?_, ?_, ?_, ?_, ?_, ?_, ?_⟩
  · unfold merge_contractors
    rw [hu]
    simp only []
    rw [if_neg (by rcases hrole with h | h <;> simp [h])]
    rw [if_neg (by simp [hs0, ht0]), if_neg hne, hsrc, htgt]
  · intro p hp
    simp only [mergedDB, List.mem_map] at hp
    obtain ⟨q, -, rfl⟩ := hp
    split
    · simp
      omega
    · rename_i hq
      intro hcon
      exact absurd (by simp [hcon]) hq
  · intro us hus
    simp only [mergedDB, List.mem_map] at hus
    obtain ⟨q, -, rfl⟩ := hus
    split
    · simp
      omega
    · rename_i hq
      intro hcon
      exact absurd (by simp [hcon]) hq
  · intro t htk
    simp only [mergedDB, List.mem_map] at htk
    obtain ⟨q, -, rfl⟩ := htk
    split
    · simp
      omega
    · rename_i hq
      intro hcon
      exact absurd (by simp [hcon]) hq
  · intro c hc
    simp only [mergedDB, List.mem_filter] at hc
    simpa using hc.2
  · intro p hp hcid
    simp only [mergedDB, List.mem_map]
    exact ⟨p, hp, by simp [hcid]⟩
  · intro p hp hcid
    simp only [mergedDB, List.mem_map]
    exact ⟨p, hp, by simp [hcid]⟩
  · intro us hus hcid
    simp only [mergedDB, List.mem_map]
    exact ⟨us, hus, by simp [hcid]⟩
  · intro t htk hcid
    simp only [mergedDB, List.mem_map]
    exact ⟨t, htk, by simp [hcid]⟩
  · have hmem : tgt ∈ db.contractors := List.mem_of_find?_eq_some htgt
    have hid : tgt.id = tid := by simpa using List.find?_some htgt
    simp only [mergedDB, List.mem_filter]
    exact ⟨hmem, by simp [hid, Ne.symm hne]⟩

/-- Witness for C7: the supervisor merges contractor 10 into contractor
20 on `dbA`. -/
theorem C7_witness :
    merge_contractors dbA 3 (some 10) (some 20) =
      .ok (mergedDB dbA 10 20, ⟨20, "Beta"⟩) :=
  (C7_merge_contractors dbA 3 10 20 ⟨3, "supervisor", none⟩ ⟨10, "Acme"⟩
    ⟨20, "Beta"⟩ rfl (Or.inl rfl) (by decide) (by decide) (by decide)
    rfl rfl).1

/-! ### Lemmas about the `bulk_import` fold -/

theorem bulkRowStep_missing_pen_id (pid : Nat) (d : DB) (c : List String)
    (e : List BulkErr) (r : PenRow) (h : r.pen_id = none) :
    bulkRowStep pid (d, c, e) r =
      (d, c, e ++ [⟨"unknown", "KeyError: pen_id"⟩]) := by
  simp [bulkRowStep, h]

theorem bulkRowStep_dup (pid : Nat) (d : DB) (c : List String)
    (e : List BulkErr) (r : PenRow) (ps : String)
    (hps : r.pen_id = some ps) (hdup : bulkDup d pid ps) :
    bulkRowStep pid (d, c, e) r =
      (d, c, e ++ [⟨ps, "Already exists in this project"⟩]) := by
  simp only [bulkRowStep, hps]
  rw [if_pos hdup]

theorem bulkRowStep_missing_deck (pid : Nat) (d : DB) (c : List String)
    (e : List BulkErr) (r : PenRow) (ps : String)
    (hps : r.pen_id = some ps) (hdup : ¬ bulkDup d pid ps)
    (hdeck : r.deck = none) :
    bulkRowStep pid (d, c, e) r = (d, c, e ++ [⟨ps, "KeyError: deck"⟩]) := by
  simp only [bulkRowStep, hps]
  rw [if_neg hdup]
  simp [hdeck]

theorem bulkRowStep_good (pid : Nat) (d : DB) (c : List String)
    (e : List BulkErr) (r : PenRow) (ps deck : String)
    (hps : r.pen_id = some ps) (hdup : ¬ bulkDup d pid ps)
    (hdeck : r.deck = some deck) :
    bulkRowStep pid (d, c, e) r =
      ({ d with pens := d.pens ++ [bulkPen d pid r ps deck] },
       c ++ [ps], e) := by
  simp only [bulkRowStep, hps]
  rw [if_neg hdup]
  simp [hdeck]

theorem bulkRowStep_acc (pid : Nat) (d : DB) (c : List String)
    (e : List BulkErr) (r : PenRow) :
    bulkRowStep pid (d, c, e) r =
      ((bulkRowStep pid (d, [], []) r).1,
       c ++ (bulkRowStep pid (d, [], []) r).2.1,
       e ++ (bulkRowStep pid (d, [], []) r).2.2) := by
  cases hps : r.pen_id with
  | none =>
    rw [bulkRowStep_missing_pen_id pid d c e r hps,
      bulkRowStep_missing_pen_id pid d [] [] r hps]
    simp
  | some ps =>
    by_cases hdup : bulkDup d pid ps
    · rw [bulkRowStep_dup pid d c e r ps hps hdup,
        bulkRowStep_dup pid d [] [] r ps hps hdup]
      simp
    · cases hdeck : r.deck with
      | none =>
        rw [bulkRowStep_missing_deck pid d c e r ps hps hdup hdeck,
          bulkRowStep_missing_deck pid d [] [] r ps hps hdup hdeck]
        simp
      | some deck =>
        rw [bulkRowStep_good pid d c e r ps deck hps hdup hdeck,
          bulkRowStep_good pid d [] [] r ps deck hps hdup hdeck]
        simp

theorem bulk_acc_shape (pid : Nat) :
    ∀ (rows : List PenRow) (d : DB) (c : List String) (e : List BulkErr),
    rows.foldl (bulkRowStep pid) (d, c, e) =
      ((rows.foldl (bulkRowStep pid) (d, [], [])).1,
       c ++ (rows.foldl (bulkRowStep pid) (d, [], [])).2.1,
       e ++ (rows.foldl (bulkRowStep pid) (d, [], [])).2.2)
  | [], d, c, e => by simp
  | r :: t, d, c, e => by
    rw [List.foldl_cons, List.foldl_cons]
    rw [bulkRowStep_acc pid d c e r]
    rcases hstep : bulkRowStep pid (d, [], []) r with ⟨d1, c1, e1⟩
    rw [bulk_acc_shape pid t d1 (c ++ c1) (e ++ e1)]
    rw [bulk_acc_shape pid t d1 c1 e1]
    simp

theorem bulkRowStep_len (pid : Nat) (d : DB) (c : List String)
    (e : List BulkErr) (r : PenRow) :
    (bulkRowStep pid (d, c, e) r).2.1.length +
      (bulkRowStep pid (d, c, e) r).2.2.length =
      c.length + e.length + 1 := by
  cases hps : r.pen_id with
  | none =>
    rw [bulkRowStep_missing_pen_id pid d c e r hps]
    simp
    omega
  | some ps =>
    by_cases hdup : bulkDup d pid ps
    · rw [bulkRowStep_dup pid d c e r ps hps hdup]
      simp
      omega
    · cases hdeck : r.deck with
      | none =>
        rw [bulkRowStep_missing_deck pid d c e r ps hps hdup hdeck]
        simp
        omega
      | some deck =>
        rw [bulkRowStep_good pid d c e r ps deck hps hdup hdeck]
        simp
        omega

theorem bulk_counts (pid : Nat) :
    ∀ (rows : List PenRow) (d : DB) (c : List String) (e : List BulkErr),
    (rows.foldl (bulkRowStep pid) (d, c, e)).2.1.length +
      (rows.foldl (bulkRowStep pid) (d, c, e)).2.2.length =
      c.length + e.length + rows.length
  | [], _, _, _ => by simp
  | r :: t, d, c, e => by
    rw [List.foldl_cons]
    rcases hs : bulkRowStep pid (d, c, e) r with ⟨d1, c1, e1⟩
    have hlen := bulkRowStep_len pid d c e r
    rw [hs] at hlen
    simp only [] at hlen
    rw [bulk_counts pid t d1 c1 e1]
    simp at hlen ⊢
    omega

theorem bulkRowStep_pens_mono (pid : Nat) (d : DB) (c : List String)
    (e : List BulkErr) (r : PenRow) {p : Penetration} (hp : p ∈ d.pens) :
    p ∈ (bulkRowStep pid (d, c, e) r).1.pens := by
  cases hps : r.pen_id with
  | none =>
    rw [bulkRowStep_missing_pen_id pid d c e r hps]
    exact hp
  | some ps =>
    by_cases hdup : bulkDup d pid ps
    · rw [bulkRowStep_dup pid d c e r ps hps hdup]
      exact hp
    · cases hdeck : r.deck with
      | none =>
        rw [bulkRowStep_missing_deck pid d c e r ps hps hdup hdeck]
        exact hp
      | some deck =>
        rw [bulkRowStep_good pid d c e r ps deck hps hdup hdeck]
        simp only [List.mem_append]
        exact Or.inl hp

theorem bulk_pens_mono (pid : Nat) :
    ∀ (rows : List PenRow) (d : DB) (c : List String) (e : List BulkErr)
      (p : Penetration), p ∈ d.pens →
      p ∈ (rows.foldl (bulkRowStep pid) (d, c, e)).1.pens
  | [], _, _, _, _, hp => by simpa using hp
  | r :: t, d, c, e, p, hp => by
    rw [List.foldl_cons]
    rcases hs : bulkRowStep pid (d, c, e) r with ⟨d1, c1, e1⟩
    have hmem : p ∈ d1.pens := by
      have := bulkRowStep_pens_mono pid d c e r hp
      rw [hs] at this
      exact this
    exact bulk_pens_mono pid t d1 c1 e1 p hmem

theorem bulk_created_persisted (pid : Nat) :
    ∀ (rows : List PenRow) (d : DB) (c : List String) (e : List BulkErr)
      (idStr : String),
      idStr ∈ (rows.foldl (bulkRowStep pid) (d, c, e)).2.1 →
      idStr ∈ c ∨ ∃ p ∈ (rows.foldl (bulkRowStep pid) (d, c, e)).1.pens,
        p.pen_id = idStr ∧ p.project_id = pid
  | [], d, c, e, idStr => by
    intro h
    exact Or.inl (by simpa using h)
  | r :: t, d, c, e, idStr => by
    intro h
    rw [List.foldl_cons] at h ⊢
    cases hps : r.pen_id with
    | none =>
      rw [bulkRowStep_missing_pen_id pid d c e r hps] at h ⊢
      exact bulk_created_persisted pid t d c _ idStr h
    | some ps =>
      by_cases hdup : bulkDup d pid ps
      · rw [bulkRowStep_dup pid d c e r ps hps hdup] at h ⊢
        exact bulk_created_persisted pid t d c _ idStr h
      · cases hdeck : r.deck with
        | none =>
          rw [bulkRowStep_missing_deck pid d c e r ps hps hdup hdeck] at h ⊢
          exact bulk_created_persisted pid t d c _ idStr h
        | some deck =>
          rw [bulkRowStep_good pid d c e r ps deck hps hdup hdeck] at h ⊢
          rcases bulk_created_persisted pid t _ _ _ idStr h with hin | hex
          · rcases List.mem_append.1 hin with hin | hin
            · exact Or.inl hin
            · right
              have hid : idStr = ps := by simpa using hin
              refine ⟨bulkPen d pid r ps deck,
                bulk_pens_mono pid t _ _ _ _ (by simp), ?_, rfl⟩
              simp [bulkPen, hid]
          · exact Or.inr hex

theorem bulk_invalid_row_independent (pid : Nat) (r : PenRow)
    (rows1 rows2 : List PenRow) (d : DB) (h : r.pen_id = none) :
    ((rows1 ++ r :: rows2).foldl (bulkRowStep pid) (d, [], [])).1 =
      ((rows1 ++ rows2).foldl (bulkRowStep pid) (d, [], [])).1 ∧
    ((rows1 ++ r :: rows2).foldl (bulkRowStep pid) (d, [], [])).2.1 =
      ((rows1 ++ rows2).foldl (bulkRowStep pid) (d, [], [])).2.1 ∧
    ((rows1 ++ r :: rows2).foldl (bulkRowStep pid) (d, [], [])).2.2.length =
      ((rows1 ++ rows2).foldl (bulkRowStep pid) (d, [], [])).2.2.length + 1
    := by
  rw [List.foldl_append, List.foldl_append]
  rcases hM : rows1.foldl (bulkRowStep pid) (d, [], []) with ⟨d1, c1, e1⟩
  rw [List.foldl_cons]
  rw [bulkRowStep_missing_pen_id pid d1 c1 e1 r h]
  rw [bulk_acc_shape pid rows2 d1 c1
    (e1 ++ [BulkErr.mk "unknown" "KeyError: pen_id"])]
  rw [bulk_acc_shape pid rows2 d1 c1 e1]
  refine ⟨rfl, rfl, ?_⟩
  simp
  omega

/-- C8: `bulk_import` (for an authorized supervisor, a nonempty row list
and an existing project) processes rows independently: the call reduces
to a per-row fold; each row contributes exactly one entry to `created`
or `errors` (their lengths sum to the row count); every identifier in
`created` belongs to a penetration actually persisted for the project;
a valid, non-duplicate row is created and listed no matter what
surrounds it; a duplicate row is reported in `errors` with its reason;
and deleting an invalid row from the batch changes nothing but the one
error entry — other rows are persisted regardless (not all-or-nothing). -/
theorem C8_bulk_import_per_row :
    (∀ (db : DB) (uid pid : Nat) (rows : List PenRow) (u : User)
        (pr : Project),
      findUser db uid = some u → u.role = "supervisor" → pid ≠ 0 →
      rows ≠ [] → findProject db pid = some pr →
      bulk_import db uid (some pid) rows =
        .ok (rows.foldl (bulkRowStep pid) (db, [], []))) ∧
    (∀ (pid : Nat) (rows : List PenRow) (db : DB),
      (rows.foldl (bulkRowStep pid) (db, [], [])).2.1.length +
        (rows.foldl (bulkRowStep pid) (db, [], [])).2.2.length =
        rows.length) ∧
    (∀ (pid : Nat) (rows : List PenRow) (db : DB) (idStr : String),
      idStr ∈ (rows.foldl (bulkRowStep pid) (db, [], [])).2.1 →
      ∃ p ∈ (rows.foldl (bulkRowStep pid) (db, [], [])).1.pens,
        p.pen_id = idStr ∧ p.project_id = pid) ∧
    (∀ (pid : Nat) (rows1 rows2 : List PenRow) (db : DB) (r : PenRow)
        (ps deck : String),
      r.pen_id = some ps → r.deck = some deck →
      ¬ bulkDup (rows1.foldl (bulkRowStep pid) (db, [], [])).1 pid ps →
      ps ∈ ((rows1 ++ r :: rows2).foldl (bulkRowStep pid)
        (db, [], [])).2.1) ∧
    (∀ (pid : Nat) (rows1 rows2 : List PenRow) (db : DB) (r : PenRow)
        (ps : String),
      r.pen_id = some ps →
      bulkDup (rows1.foldl (bulkRowStep pid) (db, [], [])).1 pid ps →
      BulkErr.mk ps "Already exists in this project" ∈
        ((rows1 ++ r :: rows2).foldl (bulkRowStep pid) (db, [], [])).2.2) ∧
    (∀ (pid : Nat) (rows1 rows2 : List PenRow) (db : DB) (r : PenRow),
      r.pen_id = none →
      ((rows1 ++ r :: rows2).foldl (bulkRowStep pid) (db, [], [])).1 =
        ((rows1 ++ rows2).foldl (bulkRowStep pid) (db, [], [])).1 ∧
      ((rows1 ++ r :: rows2).foldl (bulkRowStep pid) (db, [], [])).2.1 =
        ((rows1 ++ rows2).foldl (bulkRowStep pid) (db, [], [])).2.1 ∧
      ((rows1 ++ r :: rows2).foldl (bulkRowStep pid)
          (db, [], [])).2.2.length =
        ((rows1 ++ rows2).foldl (bulkRowStep pid)
          (db, [], [])).2.2.length + 1) := by
  refine ⟨?_, ?_, ?_, ?_, ?_, ?_⟩
  · intro db uid pid rows u pr hu hrole h0 hne hpr
    unfold bulk_import
    rw [hu]
    simp only []
    rw [if_neg (fun hh => hh hrole)]
    rw [if_neg h0]
    rw [if_neg (by simpa [List.length_eq_zero] using hne), hpr]
  · intro pid rows db
    simpa using bulk_counts pid rows db [] []
  · intro pid rows db idStr hmem
    rcases bulk_created_persisted pid rows db [] [] idStr hmem with hin | hex
    · exact absurd hin (List.not_mem_nil idStr)
    · exact hex
  · intro pid rows1 rows2 db r ps deck hps hdeck hnd
    rw [List.foldl_append]
    rcases hM : rows1.foldl (bulkRowStep pid) (db, [], []) with ⟨d1, c1, e1⟩
    rw [hM] at hnd
    rw [List.foldl_cons]
    rw [bulkRowStep_good pid d1 c1 e1 r ps deck hps hnd hdeck]
    rw [bulk_acc_shape pid rows2 _ (c1 ++ [ps]) e1]
    simp
  · intro pid rows1 rows2 db r ps hps hdup
    rw [List.foldl_append]
    rcases hM : rows1.foldl (bulkRowStep pid) (db, [], []) with ⟨d1, c1, e1⟩
    rw [hM] at hdup
    rw [List.foldl_cons]
    rw [bulkRowStep_dup pid d1 c1 e1 r ps hps hdup]
    rw [bulk_acc_shape pid rows2 d1 c1
      (e1 ++ [BulkErr.mk ps "Already exists in this project"])]
    simp
  · intro pid rows1 rows2 db r hr
    exact bulk_invalid_row_independent pid r rows1 rows2 db hr

/-- Witness for C8 on `dbA`: the supervisor imports a batch containing a
valid row `X1`, a duplicate of the existing `PEN-001`, and a row with no
`pen_id`; the valid row is created and persisted, the bad rows are
reported, and dropping the invalid row changes only that error entry. -/
theorem C8_witness :
    bulk_import dbA 3 (some 100)
        [{ pen_id := some "X1", deck := some "A" },
         { pen_id := some "PEN-001", deck := some "A" },
         { pen_id := none }] =
      .ok ([({ pen_id := some "X1", deck := some "A" } : PenRow),
            { pen_id := some "PEN-001", deck := some "A" },
            { pen_id := none }].foldl (bulkRowStep 100) (dbA, [], [])) ∧
    ("X1" ∈ ([({ pen_id := some "X1", deck := some "A" } : PenRow)].foldl
      (bulkRowStep 100) (dbA, [], [])).2.1) ∧
    BulkErr.mk "PEN-001" "Already exists in this project" ∈
      (([] ++ ({ pen_id := some "PEN-001", deck := some "A" } : PenRow) ::
        []).foldl (bulkRowStep 100) (dbA, [], [])).2.2 ∧
    (([({ pen_id := some "X1", deck := some "A" } : PenRow)] ++
        ({ pen_id := none } : PenRow) :: []).foldl
        (bulkRowStep 100) (dbA, [], [])).2.1 =
      (([({ pen_id := some "X1", deck := some "A" } : PenRow)] ++ []).foldl
        (bulkRowStep 100) (dbA, [], [])).2.1 := by
  refine ⟨?_, ?_, ?_, ?_⟩
  · exact C8_bulk_import_per_row.1 dbA 3 100 _ ⟨3, "supervisor", none⟩
      ⟨100, some 3, 50⟩ rfl rfl (by decide) (by simp) rfl
  · have h := C8_bulk_import_per_row.2.2.2.1 100 [] [] dbA
      { pen_id := some "X1", deck := some "A" } "X1" "A" rfl rfl
      (by decide)
    simpa using h
  · exact C8_bulk_import_per_row.2.2.2.2.1 100 [] [] dbA
      { pen_id := some "PEN-001", deck := some "A" } "PEN-001" rfl
      (by decide)
  · exact (C8_bulk_import_per_row.2.2.2.2.2 100
      [{ pen_id := some "X1", deck := some "A" }] [] dbA
      { pen_id := none } rfl).2.1

theorem upload_ok_inv {db db' : DB} {tokStr : String}
    {filename : Option String} {pid2 : Option Nat} {pt cap : Option String}
    {now : Nat} {photo : Photo}
    (h : upload_contractor_photo db tokStr filename pid2 pt cap now =
      .ok (db', photo)) :
    ∃ tok, findToken db tokStr = some tok ∧
      db'.tokens = setToken db.tokens tok.id
        { tok with last_used_at := some now } := by
  unfold upload_contractor_photo at h
  cases ht : findToken db tokStr with
  | none =>
    rw [ht] at h
    exact absurd h (by simp)
  | some tok =>
    rw [ht] at h
    simp only [] at h
    refine ⟨tok, rfl, ?_⟩
    by_cases hv : tokenIsValid tok now
    case neg =>
      rw [if_pos hv] at h
      exact absurd h (by simp)
    case pos =>
      rw [if_neg (not_not_intro hv)] at h
      cases h1 : filename with
      | none =>
        rw [h1] at h
        exact absurd h (by simp)
      | some fname =>
        rw [h1] at h
        simp only [] at h
        by_cases h2 : fname = ""
        · rw [if_pos h2] at h
          exact absurd h (by simp)
        · rw [if_neg h2] at h
          by_cases h3 : allowedExtension fname
          case neg =>
            rw [if_pos h3] at h
            exact absurd h (by simp)
          case pos =>
            rw [if_neg (not_not_intro h3)] at h
            cases h4 : pid2 with
            | none =>
              rw [h4] at h
              exact absurd h (by simp)
            | some pidv =>
              rw [h4] at h
              simp only [] at h
              cases h5 : findPen db pidv with
              | none =>
                rw [h5] at h
                exact absurd h (by simp)
              | some pen =>
                rw [h5] at h
                simp only [] at h
                by_cases h6 : pen.contractor_id ≠ tok.contractor_id
                · rw [if_pos h6] at h
                  exact absurd h (by simp)
                · rw [if_neg h6] at h
                  simp only [Except.ok.injEq, Prod.mk.injEq] at h
                  rw [← h.1]

theorem create_pen_ok_tokens {db db' : DB} {tokStr : String}
    {data : CreatePenTokenData} {now : Nat} {pen : Penetration}
    (h : create_pen_via_token db tokStr data now = .ok (db', pen)) :
    db'.tokens = db.tokens := by
  unfold create_pen_via_token at h
  cases ht : findToken db tokStr with
  | none =>
    rw [ht] at h
    exact absurd h (by simp)
  | some tok =>
    rw [ht] at h
    simp only [] at h
    by_cases hv : tokenIsValid tok now
    case neg =>
      rw [if_pos hv] at h
      exact absurd h (by simp)
    case pos =>
      rw [if_neg (not_not_intro hv)] at h
      cases h1 : data.pen_id with
      | none =>
        rw [h1] at h
        exact absurd h (by simp)
      | some ps =>
        rw [h1] at h
        cases h2 : data.deck with
        | none =>
          rw [h2] at h
          exact absurd h (by simp)
        | some deck =>
          rw [h2] at h
          cases h3 : data.location with
          | none =>
            rw [h3] at h
            exact absurd h (by simp)
          | some loc =>
            rw [h3] at h
            simp only [] at h
            by_cases hdup : (db.pens.filter (fun p =>
                p.project_id == tok.project_id ∧
                p.contractor_id == tok.contractor_id ∧
                p.pen_id == ps)).length ≠ 0
            · rw [if_pos hdup] at h
              exact absurd h (by simp)
            · rw [if_neg hdup] at h
              simp only [Except.ok.injEq, Prod.mk.injEq] at h
              rw [← h.1]

/-- C9 (amended): `last_used_at` is stamped with the current time by the
form fetch (even when the response then fails, the commit precedes it),
by a successful token-scoped submit, and by a successful photo upload —
but a successful `create_pen_via_token` does not touch it. -/
theorem C9_last_used_amended :
    (∀ (db : DB) (tokStr : String) (now : Nat) (tok : AccessToken),
      findToken db tokStr = some tok → tokenIsValid tok now = true →
      findToken (get_contractor_form db tokStr now).1 tokStr =
        some { tok with last_used_at := some now }) ∧
    (∀ (db db' : DB) (tokStr : String) (data : SubmitData) (now : Nat)
        (act : PenActivity) (tok : AccessToken),
      findToken db tokStr = some tok →
      submit_contractor_report db tokStr data now = .ok (db', act) →
      findToken db' tokStr = some { tok with last_used_at := some now }) ∧
    (∀ (db db' : DB) (tokStr : String) (filename : Option String)
        (pid2 : Option Nat) (pt cap : Option String) (now : Nat)
        (photo : Photo) (tok : AccessToken),
      findToken db tokStr = some tok →
      upload_contractor_photo db tokStr filename pid2 pt cap now =
        .ok (db', photo) →
      findToken db' tokStr = some { tok with last_used_at := some now }) ∧
    (∀ (db db' : DB) (tokStr : String) (data : CreatePenTokenData)
        (now : Nat) (pen : Penetration),
      create_pen_via_token db tokStr data now = .ok (db', pen) →
      db'.tokens = db.tokens) := by
  refine ⟨?_, ?_, ?_, ?_⟩
  · intro db tokStr now tok ht hv
    unfold get_contractor_form
    rw [ht]
    simp only []
    rw [if_neg (not_not_intro (by simp [hv]))]
    split
    · exact find_setToken tok { tok with last_used_at := some now } ht rfl
    · split
      · exact find_setToken tok { tok with last_used_at := some now } ht rfl
      · exact find_setToken tok { tok with last_used_at := some now } ht rfl
  · intro db db' tokStr data now act tok ht hstep
    obtain ⟨tok2, pid, a, pen, c, ht2, hv, hpid, ha, hav, hp, hassign, hc,
      hact, hdb⟩ := submit_ok_inv hstep
    obtain rfl : tok = tok2 := Option.some.inj (ht.symm.trans ht2)
    rw [hdb]
    exact find_setToken tok { tok with last_used_at := some now } ht rfl
  · intro db db' tokStr filename pid2 pt cap now photo tok ht hstep
    obtain ⟨tok2, ht2, hdb⟩ := upload_ok_inv hstep
    obtain rfl : tok = tok2 := Option.some.inj (ht.symm.trans ht2)
    show db'.tokens.find? (fun t => t.token == tokStr) =
      some { tok with last_used_at := some now }
    rw [hdb]
    exact find_setToken tok { tok with last_used_at := some now } ht rfl
  · intro db db' tokStr data now pen hstep
    exact create_pen_ok_tokens hstep

/-- C9 counterexample: creating a pen through a valid token succeeds but
leaves the token's `last_used_at` unset — it is not updated to the
current time 9, contradicting "updated on every successful use". -/
theorem C9_counterexample :
    (create_pen_via_token dbA "tok"
        { pen_id := some "NEW-1", deck := some "D", location := some "aft" }
        9).map (fun r => (findToken r.1 "tok").map AccessToken.last_used_at)
      = .ok (some none) ∧
    some (none : Option Nat) ≠ some (some 9) :=
  ⟨rfl, by decide⟩

/-- The bound token of the sample databases. -/
def tokA : AccessToken := ⟨1, 100, some 10, "tok", true, none, none⟩

/-- The snapshot produced by a successful token-scoped close of pen 1 on
`dbB` at time 9. -/
def dbB_close : DB :=
  { dbB with
    pens := setPen dbB.pens 1 (submitSideEffects penA1 "close" 9)
    activities := dbB.activities ++ [submitActivity penA1 "close" "Acme" none]
    tokens := setToken dbB.tokens 1 { tokA with last_used_at := some 9 } }

/-- The photo row created by a token-scoped upload on `dbA` at time 9. -/
def photoU : Photo :=
  { id := freshPhotoId dbA, penetration_id := 1, filename := "x.jpg",
    filepath := "cloudinary-url" }

/-- The snapshot produced by that upload. -/
def dbA_upload : DB :=
  { dbA with
    photos := dbA.photos ++ [photoU]
    tokens := setToken dbA.tokens 1 { tokA with last_used_at := some 9 } }

/-- The pen row created by `create_pen_via_token` on `dbA`. -/
def penNew : Penetration :=
  { id := freshPenId dbA, project_id := 100, contractor_id := some 10,
    pen_id := "NEW-1", deck := "D", location := some "aft" }

/-- The snapshot produced by that create (note: tokens untouched). -/
def dbA_create : DB := { dbA with pens := dbA.pens ++ [penNew] }

/-- Witness for the amended C9 at concrete inputs on `dbA`/`dbB`. -/
theorem C9_amended_witness :
    findToken (get_contractor_form dbA "tok" 9).1 "tok" =
      some { tokA with last_used_at := some 9 } ∧
    findToken dbB_close "tok" = some { tokA with last_used_at := some 9 } ∧
    findToken dbA_upload "tok" = some { tokA with last_used_at := some 9 } ∧
    dbA_create.tokens = dbA.tokens := by
  refine ⟨?_, ?_, ?_, ?_⟩
  · exact C9_last_used_amended.1 dbA "tok" 9 tokA rfl rfl
  · exact C9_last_used_amended.2.1 dbB dbB_close "tok"
      { pen_id := some 1, action := some "close" } 9
      (submitActivity penA1 "close" "Acme" none) tokA rfl rfl
  · exact C9_last_used_amended.2.2.1 dbA dbA_upload "tok" (some "x.jpg")
      (some 1) none none 9 photoU tokA rfl rfl
  · exact C9_last_used_amended.2.2.2 dbA dbA_create "tok"
      { pen_id := some "NEW-1", deck := some "D", location := some "aft" }
      9 penNew rfl

/-- C10: the token-scoped submit resolves its target penetration by
database primary key equality on the submitted `pen_id` field.  For any
otherwise-valid request whose submitted value is not the primary key of
any penetration, the operation fails with `NotFound` — even when a
penetration whose human-readable pen identifier string equals the
submitted value exists in the token's project. -/
theorem C10_submit_resolves_by_primary_key :
    ∀ (db : DB) (tokStr : String) (data : SubmitData) (now v : Nat)
      (tok : AccessToken) (a : String),
      findToken db tokStr = some tok → tokenIsValid tok now = true →
      data.pen_id = some v → v ≠ 0 → data.action = some a →
      (a = "open" ∨ a = "close") →
      findPen db v = none →
      (∃ p ∈ db.pens, p.project_id = tok.project_id ∧
        p.pen_id = toString v) →
      submit_contractor_report db tokStr data now = .error .notFound := by
  intro db tokStr data now v tok a ht hv hpid h0 ha hav hnone hexists
  unfold submit_contractor_report
  rw [ht]
  simp only []
  rw [if_neg (not_not_intro (by simp [hv])), hpid]
  simp only []
  rw [if_neg h0, ha]
  simp only []
  rw [if_neg (by rcases hav with h | h <;> simp [h]), hnone]

/-- Witness for C10 on `dbA`: the submitted value 7 is no penetration's
primary key, but pen 3 of the token's project has pen identifier string
"7"; the submit still fails with `NotFound`. -/
theorem C10_witness :
    submit_contractor_report dbA "tok"
        { pen_id := some 7, action := some "open" } 9 = .error .notFound :=
  C10_submit_resolves_by_primary_key dbA "tok"
    { pen_id := some 7, action := some "open" } 9 7 tokA "open"
    rfl rfl rfl (by decide) rfl (Or.inl rfl) rfl
    ⟨{ id := 3, project_id := 100, pen_id := "7", deck := "C",
       contractor_id := some 10 }, by decide, rfl, by decide⟩

end PenLog
